import Mathlib

set_option maxRecDepth 8000

/-!
Formal model of `src/tools/make_image.py` (the `combine_images` pipeline).

The script provisions an Azure Linux replacement root tree inside a chroot
(bind mounts of `dev`/`proc`/`sys`, `tdnf` commands, root password hash via
passlib's `sha512_crypt`), then attaches the Raspberry Pi donor image to a
loop device, checks and mounts its two partitions, computes the set of donor
directories to preserve, archives them, wipes the donor root (except `boot`),
copies the replacement tree in, restores the archive, and releases all
resources in a `finally` block.

Modelling decisions:

* Every external command (`subprocess.run(..., check=True)` /
  `subprocess.check_output`) either succeeds or raises `CalledProcessError`;
  an oracle structure injects the outcome of every such command, so theorems
  quantify over all failure injections.
* `umount` has the intrinsic behaviour of failing when the target is not
  mounted, and `losetup -d` of failing when the device is not attached, in
  addition to any injected failure.
* Filesystem checks return an exit status chosen by the oracle; per the
  `fsck.ext4`/`dosfsck` conventions, status 0 means clean, status 1 means
  errors were corrected (repairs performed), higher bits mean uncorrected
  corruption.  `check=True` raises on any nonzero status.
* Python `try`/`finally` semantics are explicit (`tryFinallyGen`): the
  `finally` block always runs, and an exception raised inside it replaces the
  in-flight exception.
* The mounted donor root and the replacement tree are finite sets of relative
  paths (`FS`); `os.path.exists`, `os.listdir`, `rm -rf` of a top-level
  entry, `cp -a` of a top-level entry, and `tar` of a list of members are
  functions on that representation.
* passlib's `sha512_crypt` digest is an external collaborator; it is a
  parameter `D : String → Nat → String → String` (salt, rounds, password)
  of the model, while the salt construction (`random.getrandbits(64)
  .to_bytes(8, 'big').hex()`), the rounds value and the verification rule
  (recompute the digest from the stored salt and rounds, compare) are
  modelled concretely.
-/

/-- A relative filesystem path, as a list of name components. -/
abbrev FPath := List String

/-- One existing filesystem object: its relative path and whether it is a
directory. -/
structure FSEntry where
  path : FPath
  isDir : Bool
deriving DecidableEq, Repr

/-- A directory tree, as the list of its existing objects. -/
abbrev FS := List FSEntry

/-- `os.path.exists(root/p)`. -/
def pathExists (fs : FS) (p : FPath) : Bool :=
  fs.any (fun e => e.path == p)

/-- Does `p` exist and is it a directory? -/
def isDirAt (fs : FS) (p : FPath) : Bool :=
  fs.any (fun e => e.path == p && e.isDir)

/-- If `q = p ++ [n]`, return `some n`, else `none`: `q` is a direct child of
directory `p` named `n`. -/
def childName (p q : FPath) : Option String :=
  if q.take p.length = p then
    match q.drop p.length with
    | [n] => some n
    | _ => none
  else none

/-- Render a component path as a slash-separated relative path string. -/
def joinPath : FPath → String
  | [] => ""
  | [x] => x
  | x :: xs => x ++ "/" ++ joinPath xs

/-- The exceptions the script can raise. -/
inductive PyErr where
  | calledProcessError (cmd : String)
  | fileNotFoundError (p : String)
  | notADirectoryError (p : String)
  | osError (what : String)
deriving DecidableEq, Repr

instance instDecEqExceptM {ε α : Type} [DecidableEq ε] [DecidableEq α] :
    DecidableEq (Except ε α) := fun x y =>
  match x, y with
  | .ok a, .ok b =>
    if h : a = b then .isTrue (by rw [h]) else .isFalse (fun hc => h (by injection hc))
  | .error a, .error b =>
    if h : a = b then .isTrue (by rw [h]) else .isFalse (fun hc => h (by injection hc))
  | .ok _, .error _ => .isFalse (fun hc => Except.noConfusion hc)
  | .error _, .ok _ => .isFalse (fun hc => Except.noConfusion hc)

/-- The names of the direct children of directory `p` (each once). -/
def childNames (fs : FS) (p : FPath) : List String :=
  (fs.filterMap (fun e => childName p e.path)).dedup

/-- `os.listdir(root/p)`: the listing of a directory; `FileNotFoundError` if
`p` does not exist, `NotADirectoryError` if it is not a directory.  `p = []`
is the mount point itself, which always exists as a directory. -/
def listdir (fs : FS) (p : FPath) : Except PyErr (List String) :=
  if p = [] then .ok (childNames fs p)
  else if isDirAt fs p then .ok (childNames fs p)
  else if pathExists fs p then .error (.notADirectoryError (joinPath p))
  else .error (.fileNotFoundError (joinPath p))

/-- `s.startswith(pfx)` on the underlying character lists. -/
def strStartsWith (s pfx : String) : Bool :=
  pfx.data.isPrefixOf s.data

/-- The preservation-set computation of `combine_images`
(src/tools/make_image.py lines 100-117): append `usr/lib/modules`, `usr/src`,
`usr/lib/firmware` when they exist, then every entry of
`os.listdir(root_mount/"usr/lib")` whose name starts with `"rasp"`.  The
`os.listdir` call raises if `usr/lib` is missing or not a directory. -/
def dirsToBackup (fs : FS) : Except PyErr (List String) :=
  let l1 := if pathExists fs ["usr", "lib", "modules"] then ["usr/lib/modules"] else []
  let l2 := if pathExists fs ["usr", "src"] then ["usr/src"] else []
  let l3 := if pathExists fs ["usr", "lib", "firmware"] then ["usr/lib/firmware"] else []
  match listdir fs ["usr", "lib"] with
  | .error e => .error e
  | .ok names =>
      .ok (l1 ++ l2 ++ l3 ++
        (names.filter (fun n => strStartsWith n "rasp")).map (fun n => "usr/lib/" ++ n))

/-- The three fixed preservation rules of the spec, with the component form of
each fixed path. -/
def fixedPreservationRules : List (String × FPath) :=
  [("usr/lib/modules", ["usr", "lib", "modules"]),
   ("usr/src", ["usr", "src"]),
   ("usr/lib/firmware", ["usr", "lib", "firmware"])]

/-- The preservation set as the spec words it: the subset of the three fixed
paths that exists, plus every entry directly under `usr/lib` whose name begins
with the vendor prefix `"rasp"`, in that rule order.  `names` is the listing
of `usr/lib`. -/
def specPreservationSet (fs : FS) (names : List String) : List String :=
  ((fixedPreservationRules.filter (fun r => pathExists fs r.2)).map (fun r => r.1)) ++
    ((names.filter (fun n => strStartsWith n "rasp")).map (fun n => "usr/lib/" ++ n))

/-! ## Password hash model -/

/-- Big-endian byte string of a natural number, `k` bytes
(`r.to_bytes(k, 'big')`); `r` is reduced mod `256 ^ k`. -/
def toBytesBE : Nat → Nat → List Nat
  | 0, _ => []
  | k + 1, r => toBytesBE k (r / 256) ++ [r % 256]

/-- Lowercase hexadecimal digit. -/
def hexDigit (n : Nat) : Char :=
  "0123456789abcdef".data.getD n '0'

/-- Two lowercase hex characters of one byte. -/
def byteHex (b : Nat) : List Char :=
  [hexDigit (b / 16), hexDigit (b % 16)]

/-- `random.getrandbits(64).to_bytes(8, 'big').hex()`
(src/tools/make_image.py line 63): the 16-character lowercase hex encoding of
the 8 random bytes used as the salt. -/
def passwordSalt (r : Nat) : String :=
  String.mk (((toBytesBE 8 r).map byteHex).flatten)

/-- Decode a big-endian byte string. -/
def fromBytesBE (bs : List Nat) : Nat :=
  bs.foldl (fun a b => a * 256 + b) 0

/-- A parsed crypt-style modular hash string `$scheme$salt$digest` (with the
rounds parameter, implicit when it equals the scheme default 5000). -/
structure CryptHash where
  scheme : String
  rounds : Nat
  salt : String
  digest : String
deriving DecidableEq, Repr

/-- `sha512_crypt.using(salt=salt, rounds=rounds).hash(pw)`: passlib's
SHA-512-crypt.  The digest function `D` (salt, rounds, password ↦ digest
text) is the external library computation; the structure of the result —
scheme id 6, the stored rounds and salt, digest depending on salt, rounds and
password — is modelled here. -/
def sha512CryptHash (D : String → Nat → String → String)
    (salt : String) (rounds : Nat) (pw : String) : CryptHash :=
  ⟨"6", rounds, salt, D salt rounds pw⟩

/-- Crypt verification: recompute the digest from the candidate password and
the salt and rounds stored in the hash, compare. -/
def cryptVerify (D : String → Nat → String → String)
    (pw : String) (h : CryptHash) : Bool :=
  h.scheme == "6" && h.digest == D h.salt h.rounds pw

/-- Rendering of the hash as a crypt string (rounds omitted at the implicit
default 5000, as passlib does). -/
def renderCrypt (h : CryptHash) : String :=
  "$" ++ h.scheme ++ "$" ++ h.salt ++ "$" ++ h.digest

/-! ## Generic sequencing with Python `try`/`finally` semantics -/

/-- Sequence two fallible state transformers: an exception aborts the rest. -/
def pstep {σ : Type} (r : Except PyErr Unit × σ) (f : σ → Except PyErr Unit × σ) :
    Except PyErr Unit × σ :=
  match r with
  | (.ok _, s) => f s
  | (.error e, s) => (.error e, s)

/-- Python `try`/`finally`: the `finally` block `fin` always runs on the state
left by the `try` block; an exception raised inside `fin` replaces the
in-flight exception of the `try` block. -/
def tryFinallyGen {σ : Type} (t : Except PyErr Unit × σ) (fin : σ → Except PyErr Unit × σ) :
    Except PyErr Unit × σ :=
  match fin t.2 with
  | (.error e, sf) => (.error e, sf)
  | (.ok _, sf) => (t.1, sf)

/-! ## Provisioning session (src/tools/make_image.py lines 36-72) -/

/-- Outcomes of the external commands of the provisioning session, plus the
value returned by `random.getrandbits(64)`. -/
structure ProvOracle where
  bindOk : String → Bool
  cpResolvOk : Bool
  tdnfUpdateOk : Bool
  tdnfInstallOk : Bool
  usermodOk : Bool
  rmResolvOk : Bool
  umountOk : String → Bool
  randBits : Nat

/-- Observable state of the replacement tree during provisioning.
`binds` is the list of pseudo-filesystems currently bind-mounted into the
tree, in bind order; `resolvHost` records whether the host's
`/etc/resolv.conf` copy is currently present at `etc/resolv.conf`. -/
structure ProvState where
  binds : List String
  resolvHost : Bool
  fstab : Option String
  hostname : Option String
  rootHash : Option CryptHash
deriving DecidableEq, Repr

/-- The literal `etc/fstab` content written by the script. -/
def fstabContent : String :=
  "proc /proc proc defaults 0 0\n/dev/mmcblk0p2 / ext4 defaults,rw 0 1\n/dev/mmcblk0p1 /boot/firmware vfat defaults,rw,nofail 0 1\n"

/-- The bind loop (lines 36-39): `os.makedirs(target, exist_ok=True)` then
`sudo mount --bind /fs target` with `check=True`, for `dev`, `proc`, `sys` in
order.  A failure aborts the loop, leaving the earlier binds in place. -/
def bindLoop (o : ProvOracle) : List String → ProvState → Except PyErr Unit × ProvState
  | [], s => (.ok (), s)
  | f :: rest, s =>
    if o.bindOk f then bindLoop o rest { s with binds := s.binds ++ [f] }
    else (.error (.calledProcessError ("mount --bind /" ++ f)), s)

/-- The `try` block (lines 53-65): `tdnf update`, `tdnf install ...`, then the
salt/hash computation and `usermod -p <hash> root`, each aborting on
failure. -/
def provTry (D : String → Nat → String → String) (o : ProvOracle) (s : ProvState) :
    Except PyErr Unit × ProvState :=
  if o.tdnfUpdateOk then
    if o.tdnfInstallOk then
      if o.usermodOk then
        let h := sha512CryptHash D (passwordSalt (o.randBits % 2 ^ 64)) 5000 "azl"
        (.ok (), { s with rootHash := some h })
      else (.error (.calledProcessError "chroot usermod -p root"), s)
    else (.error (.calledProcessError "chroot tdnf install"), s)
  else (.error (.calledProcessError "chroot tdnf update"), s)

/-- The unmount loop of the `finally` block (lines 69-72): `sudo umount
target` with `check=True` for `dev`, `proc`, `sys` in order; `umount` fails
intrinsically when the target is not bound, and a failure aborts the loop. -/
def umountLoop (o : ProvOracle) : List String → ProvState → Except PyErr Unit × ProvState
  | [], s => (.ok (), s)
  | f :: rest, s =>
    if s.binds.contains f && o.umountOk f then
      umountLoop o rest { s with binds := s.binds.erase f }
    else (.error (.calledProcessError ("umount " ++ f)), s)

/-- The `finally` block (lines 66-72): `sudo rm -f etc/resolv.conf`
(`check=True`), then the unmount loop.  A failing `rm` aborts the block
before any unmount. -/
def provFinally (o : ProvOracle) (s : ProvState) : Except PyErr Unit × ProvState :=
  if o.rmResolvOk then
    umountLoop o ["dev", "proc", "sys"] { s with resolvHost := false }
  else (.error (.calledProcessError "rm -f resolv.conf"), s)

/-- The provisioning session (lines 36-72): bind loop, host resolv.conf copy,
fstab and hostname writes (plain Python file writes), then the chroot command
sequence wrapped in `try`/`finally`. -/
def provisionSession (D : String → Nat → String → String) (o : ProvOracle) (s : ProvState) :
    Except PyErr Unit × ProvState :=
  pstep (bindLoop o ["dev", "proc", "sys"] s) (fun s1 =>
    if o.cpResolvOk then
      let s2 := { s1 with resolvHost := true, fstab := some fstabContent,
                          hostname := some "azurelinux\n" }
      tryFinallyGen (provTry D o s2) (provFinally o)
    else (.error (.calledProcessError "cp /etc/resolv.conf"), s1))

/-- A fresh provisioning state: nothing bound, no host resolv.conf copy. -/
def initProvState : ProvState :=
  ⟨[], false, none, none, none⟩

/-! ## Loop device / mount / replace pipeline
(src/tools/make_image.py lines 74-170) -/

/-- Events recorded by the device pipeline, for ordering properties. -/
inductive Ev where
  | loopAttach | mountBoot | mountRoot | umountBoot | umountRoot | loopDetach
  | tarCreate | tarMove | tarExtract
deriving DecidableEq, Repr

/-- Outcomes of the external commands of the device pipeline.  The two check
fields are the exit statuses of `dosfsck -a` and `fsck.ext4 -y`
(0 = clean; per the fsck conventions 1 = errors corrected,
larger = uncorrected corruption or operational error); `check=True` raises on
any nonzero status. -/
structure DevOracle where
  losetupOk : Bool
  dosfsckExit : Nat
  fsckExit : Nat
  mkdirBootOk : Bool
  mkdirRootOk : Bool
  mountBootOk : Bool
  mountRootOk : Bool
  tarOk : Bool
  mvOk : Bool
  rmEntryOk : String → Bool
  cpEntryOk : String → Bool
  tarExtractOk : Bool
  rmTmpTarOk : Bool
  umountBootOk : Bool
  umountRootOk : Bool
  detachOk : Bool

/-- Observable state of the device pipeline: the loop attachment, the two
temporary mount-point directories, the two mounts, the content of the mounted
root partition, the staged archive at `/tmp/raspbian_preserve.tar` (presence
and content), and the event trace. -/
structure DevState where
  loopAttached : Bool
  bootDir : Bool
  rootDir : Bool
  mountedBoot : Bool
  mountedRoot : Bool
  rootFs : FS
  tmpTar : Bool
  archive : FS
  trace : List Ev
deriving DecidableEq, Repr

/-- `subprocess.check_output(['sudo','losetup','--find','--show','-P',...])`
(lines 74-77): attaches the image, or raises with nothing attached. -/
def runLosetup (o : DevOracle) (s : DevState) : Except PyErr Unit × DevState :=
  if o.losetupOk then
    (.ok (), { s with loopAttached := true, trace := s.trace ++ [Ev.loopAttach] })
  else (.error (.calledProcessError "losetup --find --show -P"), s)

/-- `sudo dosfsck -a {loop}p1` with `check=True` (line 80). -/
def runDosfsck (o : DevOracle) (s : DevState) : Except PyErr Unit × DevState :=
  if o.dosfsckExit = 0 then (.ok (), s)
  else (.error (.calledProcessError "dosfsck -a p1"), s)

/-- `sudo fsck.ext4 -y {loop}p2` with `check=True` (line 82). -/
def runFsckExt4 (o : DevOracle) (s : DevState) : Except PyErr Unit × DevState :=
  if o.fsckExit = 0 then (.ok (), s)
  else (.error (.calledProcessError "fsck.ext4 -y p2"), s)

/-- `tempfile.mkdtemp(prefix="mnt_boot_")` (line 84). -/
def mkBootDir (o : DevOracle) (s : DevState) : Except PyErr Unit × DevState :=
  if o.mkdirBootOk then (.ok (), { s with bootDir := true })
  else (.error (.osError "mkdtemp mnt_boot_"), s)

/-- `tempfile.mkdtemp(prefix="mnt_root_")` (line 85). -/
def mkRootDir (o : DevOracle) (s : DevState) : Except PyErr Unit × DevState :=
  if o.mkdirRootOk then (.ok (), { s with rootDir := true })
  else (.error (.osError "mkdtemp mnt_root_"), s)

/-- `sudo mount {loop}p1 boot_mount` (line 88). -/
def mountBootStep (o : DevOracle) (s : DevState) : Except PyErr Unit × DevState :=
  if o.mountBootOk then
    (.ok (), { s with mountedBoot := true, trace := s.trace ++ [Ev.mountBoot] })
  else (.error (.calledProcessError "mount p1 boot_mount"), s)

/-- `sudo mount {loop}p2 root_mount` (line 89). -/
def mountRootStep (o : DevOracle) (s : DevState) : Except PyErr Unit × DevState :=
  if o.mountRootOk then
    (.ok (), { s with mountedRoot := true, trace := s.trace ++ [Ev.mountRoot] })
  else (.error (.calledProcessError "mount p2 root_mount"), s)

/-- Split a slash-separated relative path string into components (how `tar`
interprets the member names given to it). -/
def splitSlashAux : List Char → List Char → FPath
  | [], acc => [String.mk acc.reverse]
  | c :: cs, acc =>
    if c = '/' then String.mk acc.reverse :: splitSlashAux cs []
    else splitSlashAux cs (c :: acc)

/-- Split a slash-separated path string into components. -/
def splitSlash (s : String) : FPath :=
  splitSlashAux s.data []

/-- The objects archived by `tar cf backup_tar <dirs>` run with
`cwd=root_mount`: every object whose path extends one of the member paths. -/
def archiveContent (fs : FS) (d : List String) : FS :=
  fs.filter (fun e => d.any (fun ds => (splitSlash ds).isPrefixOf e.path))

/-- Remove a top-level entry and everything below it (`sudo rm -rf`, or
`rm -f` for a file). -/
def removeTop (fs : FS) (n : String) : FS :=
  fs.filter (fun e => !(e.path.take 1 == [n]))

/-- The subtree of the replacement tree rooted at top-level entry `n` (what
`sudo cp -a azurelinux/n root_mount/n` transfers). -/
def subtreeAt (fs : FS) (n : String) : FS :=
  fs.filter (fun e => e.path.take 1 == [n])

/-- The backup step (lines 96-125): compute `dirs_to_backup` (which can raise
from `os.listdir`), and if non-empty run `tar cf raspbian_preserve.tar
<dirs>` inside the root mount, then `mv` the archive to
`/tmp/raspbian_preserve.tar`.  Each command aborts the pipeline on failure;
a failed `mv` leaves the archive file inside the root mount. -/
def archiveStage (o : DevOracle) (s : DevState) : Except PyErr Unit × DevState :=
  match dirsToBackup s.rootFs with
  | .error e => (.error e, s)
  | .ok d =>
    if d.isEmpty then (.ok (), s)
    else if o.tarOk then
      let s1 := { s with rootFs := s.rootFs ++ [⟨["raspbian_preserve.tar"], false⟩],
                         archive := archiveContent s.rootFs d,
                         trace := s.trace ++ [Ev.tarCreate] }
      if o.mvOk then
        (.ok (), { s1 with rootFs := removeTop s1.rootFs "raspbian_preserve.tar",
                           tmpTar := true, trace := s1.trace ++ [Ev.tarMove] })
      else (.error (.calledProcessError "mv raspbian_preserve.tar /tmp"), s1)
    else (.error (.calledProcessError "tar cf raspbian_preserve.tar"), s)

/-- The wipe loop body (lines 128-135): for each name of the snapshot of
`os.listdir(root_mount)`, skip `boot`, else `sudo rm -rf`/`rm -f` it
(`check=True`); a failure aborts the loop. -/
def wipeNames (o : DevOracle) : List String → FS → Except PyErr Unit × FS
  | [], fs => (.ok (), fs)
  | n :: ns, fs =>
    if n = "boot" then wipeNames o ns fs
    else if o.rmEntryOk n then wipeNames o ns (removeTop fs n)
    else (.error (.calledProcessError ("rm " ++ n)), fs)

/-- The wipe stage: iterate the wipe loop over the top-level listing of the
mounted root. -/
def wipeStage (o : DevOracle) (s : DevState) : Except PyErr Unit × DevState :=
  let r := wipeNames o (childNames s.rootFs []) s.rootFs
  (r.1, { s with rootFs := r.2 })

/-- The copy loop body (lines 138-144): for each top-level entry of the
replacement tree, `sudo cp -a`/`cp` it into the root mount (`check=True`);
a failure aborts the loop. -/
def copyNames (o : DevOracle) (repl : FS) : List String → FS → Except PyErr Unit × FS
  | [], fs => (.ok (), fs)
  | n :: ns, fs =>
    if o.cpEntryOk n then copyNames o repl ns (fs ++ subtreeAt repl n)
    else (.error (.calledProcessError ("cp -a " ++ n)), fs)

/-- The copy stage: iterate the copy loop over the top-level listing of the
replacement tree. -/
def copyStage (o : DevOracle) (repl : FS) (s : DevState) : Except PyErr Unit × DevState :=
  let r := copyNames o repl (childNames repl []) s.rootFs
  (r.1, { s with rootFs := r.2 })

/-- The restore step (lines 146-155): if `/tmp/raspbian_preserve.tar` exists,
`tar xf` it into the root mount and delete it; otherwise do nothing. -/
def restoreStage (o : DevOracle) (s : DevState) : Except PyErr Unit × DevState :=
  if s.tmpTar then
    if o.tarExtractOk then
      let s1 := { s with rootFs := s.rootFs ++ s.archive, trace := s.trace ++ [Ev.tarExtract] }
      if o.rmTmpTarOk then (.ok (), { s1 with tmpTar := false, archive := [] })
      else (.error (.calledProcessError "rm -f /tmp/raspbian_preserve.tar"), s1)
    else (.error (.calledProcessError "tar xf /tmp/raspbian_preserve.tar"), s)
  else (.ok (), s)

/-- The stages of the `try` block after both mounts. -/
def middleStages (o : DevOracle) (repl : FS) (s : DevState) : Except PyErr Unit × DevState :=
  pstep (archiveStage o s) (fun s1 =>
  pstep (wipeStage o s1) (fun s2 =>
  pstep (copyStage o repl s2) (fun s3 =>
  restoreStage o s3)))

/-- The `try` block (lines 87-161): mount boot, mount root, then archive,
wipe, copy, restore. -/
def tryBody (o : DevOracle) (repl : FS) (s : DevState) : Except PyErr Unit × DevState :=
  pstep (mountBootStep o s) (fun s1 =>
  pstep (mountRootStep o s1) (fun s2 =>
  middleStages o repl s2))

/-- The `finally` block (lines 163-170): `time.sleep(5)` (no observable
effect), `sudo umount boot_mount`, `sudo umount root_mount`,
`sudo losetup -d loop_device` — each with `check=True`, so a failure aborts
the remaining release steps — then `shutil.rmtree` of the two mount-point
directories.  `umount` fails intrinsically when the target is not mounted and
`losetup -d` when nothing is attached. -/
def finallyStage (o : DevOracle) (s : DevState) : Except PyErr Unit × DevState :=
  if s.mountedBoot && o.umountBootOk then
    let s1 := { s with mountedBoot := false, trace := s.trace ++ [Ev.umountBoot] }
    if s1.mountedRoot && o.umountRootOk then
      let s2 := { s1 with mountedRoot := false, trace := s1.trace ++ [Ev.umountRoot] }
      if s2.loopAttached && o.detachOk then
        let s3 := { s2 with loopAttached := false, trace := s2.trace ++ [Ev.loopDetach] }
        (.ok (), { s3 with bootDir := false, rootDir := false })
      else (.error (.calledProcessError "losetup -d"), s2)
    else (.error (.calledProcessError "umount root_mount"), s1)
  else (.error (.calledProcessError "umount boot_mount"), s)

/-- The device part of `combine_images` (lines 74-170): attach the loop
device, check both filesystems, create the two temporary mount points, then
the `try` block with the `finally` release block. -/
def devicePipeline (o : DevOracle) (repl : FS) (s : DevState) : Except PyErr Unit × DevState :=
  pstep (runLosetup o s) (fun s1 =>
  pstep (runDosfsck o s1) (fun s2 =>
  pstep (runFsckExt4 o s2) (fun s3 =>
  pstep (mkBootDir o s3) (fun s4 =>
  pstep (mkRootDir o s4) (fun s5 =>
  tryFinallyGen (tryBody o repl s5) (finallyStage o))))))

/-- The `try` block stages after both mounts, with the restore step removed
(for stating that the restore step is a no-op). -/
def middleStagesNoRestore (o : DevOracle) (repl : FS) (s : DevState) :
    Except PyErr Unit × DevState :=
  pstep (archiveStage o s) (fun s1 =>
  pstep (wipeStage o s1) (fun s2 =>
  copyStage o repl s2))

/-- `tryBody` with the restore step removed. -/
def tryBodyNoRestore (o : DevOracle) (repl : FS) (s : DevState) :
    Except PyErr Unit × DevState :=
  pstep (mountBootStep o s) (fun s1 =>
  pstep (mountRootStep o s1) (fun s2 =>
  middleStagesNoRestore o repl s2))

/-- `devicePipeline` with the restore step removed. -/
def devicePipelineNoRestore (o : DevOracle) (repl : FS) (s : DevState) :
    Except PyErr Unit × DevState :=
  pstep (runLosetup o s) (fun s1 =>
  pstep (runDosfsck o s1) (fun s2 =>
  pstep (runFsckExt4 o s2) (fun s3 =>
  pstep (mkBootDir o s3) (fun s4 =>
  pstep (mkRootDir o s4) (fun s5 =>
  tryFinallyGen (tryBodyNoRestore o repl s5) (finallyStage o))))))

/-- The fresh device state at the start of a pipeline run: nothing attached or
mounted, the donor root partition containing `fs`, no staged archive at
`/tmp/raspbian_preserve.tar`. -/
def initDevState (fs : FS) : DevState :=
  ⟨false, false, false, false, false, fs, false, [], []⟩

/-- The device state reached after a successful attach, both checks clean,
both mount points created and both partitions mounted, with donor root
content `fs`: the state entering the archive/wipe/copy/restore stages. -/
def mountedDevState (fs : FS) : DevState :=
  ⟨true, true, true, true, true, fs, false, [],
    [Ev.loopAttach, Ev.mountBoot, Ev.mountRoot]⟩

/-- The whole of `combine_images`: the provisioning session on the
replacement tree, then (only if it succeeded) the device pipeline on the
donor image. -/
def combineImages (D : String → Nat → String → String) (po : ProvOracle) (o : DevOracle)
    (repl : FS) (ps : ProvState) (ds : DevState) :
    Except PyErr Unit × ProvState × DevState :=
  match provisionSession D po ps with
  | (.error e, ps1) => (.error e, ps1, ds)
  | (.ok _, ps1) =>
    let r := devicePipeline o repl ds
    (r.1, ps1, r.2)

/-- Mount and unmount events. -/
def isMountEv : Ev → Bool
  | .mountBoot | .mountRoot | .umountBoot | .umountRoot => true
  | _ => false

/-- Archive (tar) events. -/
def isTarEv : Ev → Bool
  | .tarCreate | .tarMove | .tarExtract => true
  | _ => false

/-- Frame relation between device states: same loop/mount/directory resources
and the same sequence of mount and unmount events. -/
def sameMountFrame (s t : DevState) : Prop :=
  t.loopAttached = s.loopAttached ∧ t.bootDir = s.bootDir ∧ t.rootDir = s.rootDir ∧
  t.mountedBoot = s.mountedBoot ∧ t.mountedRoot = s.mountedRoot ∧
  t.trace.filter isMountEv = s.trace.filter isMountEv

/-! ## Lemmas about the filesystem model -/

theorem childName_eq_some {p q : FPath} {n : String} (h : childName p q = some n) :
    q = p ++ [n] := by
  unfold childName at h
  by_cases ht : q.take p.length = p
  · simp only [ht, if_true] at h
    rcases hd : q.drop p.length with _ | ⟨a, _ | ⟨b, l⟩⟩ <;> rw [hd] at h
    · cases h
    · have ha : a = n := by
        injection h
      have := List.take_append_drop p.length q
      rw [ht, hd, ha] at this
      exact this.symm
    · cases h
  · simp only [ht, if_false] at h
    cases h

theorem listdir_ok_names {fs : FS} {p : FPath} {ns : List String}
    (h : listdir fs p = .ok ns) : ns = childNames fs p := by
  unfold listdir at h
  by_cases h0 : p = []
  · simp only [h0, if_true] at h
    injection h with h
    rw [← h0] at h
    exact h.symm
  · simp only [h0, if_false] at h
    by_cases h1 : isDirAt fs p = true
    · simp only [h1, if_true] at h
      injection h with h
      exact h.symm
    · simp only [h1, if_false] at h
      by_cases h2 : pathExists fs p = true <;> simp only [h2, if_true, if_false] at h <;> cases h

theorem childNames_nodup (fs : FS) (p : FPath) : (childNames fs p).Nodup :=
  List.nodup_dedup _

theorem pathExists_of_mem_childNames {fs : FS} {p : FPath} {n : String}
    (h : n ∈ childNames fs p) : pathExists fs (p ++ [n]) = true := by
  unfold childNames at h
  rw [List.mem_dedup] at h
  rcases List.mem_filterMap.mp h with ⟨e, he, hcn⟩
  have hq := childName_eq_some hcn
  unfold pathExists
  rw [List.any_eq_true]
  exact ⟨e, he, by simp [hq]⟩

theorem usrLibAppend_inj : Function.Injective (fun n : String => "usr/lib/" ++ n) := by
  intro a b h
  have hd := congrArg String.data h
  simp only [String.data_append] at hd
  exact String.ext (List.append_cancel_left hd)

theorem joinPath_usrLib (n : String) : joinPath ["usr", "lib", n] = "usr/lib/" ++ n := by
  apply String.ext
  show ("usr" ++ "/" ++ ("lib" ++ "/" ++ n)).data = ("usr/lib/" ++ n).data
  simp only [String.data_append, List.append_assoc]
  rfl

/-- C3: for every mounted donor root (on which listing `usr/lib` succeeds),
the resolved preservation set is exactly the subset of
`{usr/lib/modules, usr/src, usr/lib/firmware}` that exists plus every entry
directly under `usr/lib` whose name begins with the vendor prefix `rasp`, in
fixed rule order (modules, src, firmware, then the prefix matches), with no
duplicates, and every listed path exists at resolution time.  The four rules
are applied independently (the outcome is a function of the four independent
membership tests, with no short-circuit). -/
theorem preservation_set_exact (fs : FS) (names : List String)
    (h : listdir fs ["usr", "lib"] = .ok names) :
    dirsToBackup fs = .ok (specPreservationSet fs names) ∧
    (specPreservationSet fs names).Nodup ∧
    (∀ p ∈ specPreservationSet fs names,
      ∃ c : FPath, joinPath c = p ∧ pathExists fs c = true) := by
  have hnames : names = childNames fs ["usr", "lib"] := listdir_ok_names h
  refine ⟨?_, ?_, ?_⟩
  · simp only [dirsToBackup, specPreservationSet, fixedPreservationRules, h]
    cases h1 : pathExists fs ["usr", "lib", "modules"] <;>
      cases h2 : pathExists fs ["usr", "src"] <;>
        cases h3 : pathExists fs ["usr", "lib", "firmware"] <;>
          simp [h1, h2, h3, List.filter]
  · unfold specPreservationSet
    rw [List.nodup_append]
    refine ⟨?_, ?_, ?_⟩
    · exact List.Nodup.sublist
        (List.Sublist.map _ (List.filter_sublist fixedPreservationRules))
        (by decide : (fixedPreservationRules.map (fun r => r.1)).Nodup)
    · exact List.Nodup.map usrLibAppend_inj
        (List.Nodup.filter _ (hnames ▸ childNames_nodup fs ["usr", "lib"]))
    · intro a ha hb
      rcases List.mem_map.mp ha with ⟨r, hrf, rfl⟩
      have hr : r ∈ fixedPreservationRules := List.mem_filter.mp hrf |>.1
      rcases List.mem_map.mp hb with ⟨n, hnf, hn⟩
      have hrsp : strStartsWith n "rasp" = true := (List.mem_filter.mp hnf).2
      have hrc : r = ("usr/lib/modules", ["usr", "lib", "modules"]) ∨
          r = ("usr/src", ["usr", "src"]) ∨
          r = ("usr/lib/firmware", ["usr", "lib", "firmware"]) := by
        simpa [fixedPreservationRules] using hr
      rcases hrc with rfl | rfl | rfl
      · have : ("usr/lib/" ++ "modules" : String) = "usr/lib/" ++ n := by
          rw [show ("usr/lib/" ++ "modules" : String) = "usr/lib/modules" from by decide]
          exact hn.symm
        have hnm : n = "modules" := (usrLibAppend_inj this).symm
        rw [hnm] at hrsp
        exact absurd hrsp (by decide)
      · have hlen := congrArg String.length hn
        simp only [String.length_append] at hlen
        rw [show ("usr/lib/" : String).length = 8 from by decide,
          show ("usr/src" : String).length = 7 from by decide] at hlen
        omega
      · have : ("usr/lib/" ++ "firmware" : String) = "usr/lib/" ++ n := by
          rw [show ("usr/lib/" ++ "firmware" : String) = "usr/lib/firmware" from by decide]
          exact hn.symm
        have hnm : n = "firmware" := (usrLibAppend_inj this).symm
        rw [hnm] at hrsp
        exact absurd hrsp (by decide)
  · intro p hp
    unfold specPreservationSet at hp
    rcases List.mem_append.mp hp with hl | hr
    · rcases List.mem_map.mp hl with ⟨r, hrf, rfl⟩
      have hr : r ∈ fixedPreservationRules := List.mem_filter.mp hrf |>.1
      have hre : pathExists fs r.2 = true := by
        have := (List.mem_filter.mp hrf).2
        simpa using this
      have hrc : r = ("usr/lib/modules", ["usr", "lib", "modules"]) ∨
          r = ("usr/src", ["usr", "src"]) ∨
          r = ("usr/lib/firmware", ["usr", "lib", "firmware"]) := by
        simpa [fixedPreservationRules] using hr
      refine ⟨r.2, ?_, hre⟩
      rcases hrc with rfl | rfl | rfl <;> decide
    · rcases List.mem_map.mp hr with ⟨n, hnf, rfl⟩
      have hmem : n ∈ names := (List.mem_filter.mp hnf).1
      rw [hnames] at hmem
      refine ⟨["usr", "lib", n], joinPath_usrLib n, ?_⟩
      exact pathExists_of_mem_childNames hmem

/-- Witness for `preservation_set_exact`, at a donor root containing
`usr/lib/modules`, `usr/src` and `usr/lib/raspberrypi-kernel`. -/
theorem preservation_set_exact_witness :
    listdir
        [⟨["usr"], true⟩, ⟨["usr", "lib"], true⟩, ⟨["usr", "lib", "modules"], true⟩,
         ⟨["usr", "src"], true⟩, ⟨["usr", "lib", "raspberrypi-kernel"], true⟩]
        ["usr", "lib"] = .ok ["modules", "raspberrypi-kernel"] ∧
      dirsToBackup
        [⟨["usr"], true⟩, ⟨["usr", "lib"], true⟩, ⟨["usr", "lib", "modules"], true⟩,
         ⟨["usr", "src"], true⟩, ⟨["usr", "lib", "raspberrypi-kernel"], true⟩] =
        .ok (specPreservationSet
          [⟨["usr"], true⟩, ⟨["usr", "lib"], true⟩, ⟨["usr", "lib", "modules"], true⟩,
           ⟨["usr", "src"], true⟩, ⟨["usr", "lib", "raspberrypi-kernel"], true⟩]
          ["modules", "raspberrypi-kernel"]) :=
  ⟨by decide,
    (preservation_set_exact
      [⟨["usr"], true⟩, ⟨["usr", "lib"], true⟩, ⟨["usr", "lib", "modules"], true⟩,
       ⟨["usr", "src"], true⟩, ⟨["usr", "lib", "raspberrypi-kernel"], true⟩]
      ["modules", "raspberrypi-kernel"] (by decide)).1⟩

/-! ## Lemmas about the password hash model -/

theorem toBytesBE_length : ∀ (k r : Nat), (toBytesBE k r).length = k := by
  intro k
  induction k with
  | zero => intro r; rfl
  | succ k ih =>
    intro r
    show (toBytesBE k (r / 256) ++ [r % 256]).length = k + 1
    simp [ih]

theorem toBytesBE_lt : ∀ (k r : Nat), ∀ b ∈ toBytesBE k r, b < 256 := by
  intro k
  induction k with
  | zero => intro r b hb; cases hb
  | succ k ih =>
    intro r b hb
    rcases List.mem_append.mp hb with h | h
    · exact ih (r / 256) b h
    · have : b = r % 256 := by simpa using h
      omega

theorem fromBytesBE_append_one (l : List Nat) (b : Nat) :
    fromBytesBE (l ++ [b]) = fromBytesBE l * 256 + b := by
  simp [fromBytesBE, List.foldl_append]

theorem fromBytesBE_toBytesBE : ∀ (k r : Nat), fromBytesBE (toBytesBE k r) = r % 256 ^ k := by
  intro k
  induction k with
  | zero => intro r; simp [toBytesBE, fromBytesBE, Nat.mod_one]
  | succ k ih =>
    intro r
    rw [show toBytesBE (k + 1) r = toBytesBE k (r / 256) ++ [r % 256] from rfl,
      fromBytesBE_append_one, ih]
    rw [show (256 : Nat) ^ (k + 1) = 256 * 256 ^ k from by ring, Nat.mod_mul]
    omega

theorem flatten_byteHex_length : ∀ l : List Nat, ((l.map byteHex).flatten).length = 2 * l.length := by
  intro l
  induction l with
  | nil => simp
  | cons a t ih => simp [byteHex, ih]; omega

theorem passwordSalt_length (r : Nat) : (passwordSalt r).length = 16 := by
  show (((toBytesBE 8 r).map byteHex).flatten).length = 16
  rw [flatten_byteHex_length, toBytesBE_length]

theorem hexDigit_inj : ∀ a b : Nat, a < 16 → b < 16 → hexDigit a = hexDigit b → a = b := by
  have key : ∀ a b : Fin 16, hexDigit a.val = hexDigit b.val → a = b := by decide
  intro a b ha hb h
  exact congrArg Fin.val (key ⟨a, ha⟩ ⟨b, hb⟩ h)

theorem byteHex_inj : ∀ a b : Nat, a < 256 → b < 256 → byteHex a = byteHex b → a = b := by
  intro a b ha hb h
  unfold byteHex at h
  injection h with h1 h2
  injection h2 with h2 _
  have d1 : a / 16 = b / 16 := hexDigit_inj _ _ (by omega) (by omega) h1
  have d2 : a % 16 = b % 16 := hexDigit_inj _ _ (by omega) (by omega) h2
  omega

theorem flatten_byteHex_inj :
    ∀ (l1 l2 : List Nat), (∀ b ∈ l1, b < 256) → (∀ b ∈ l2, b < 256) →
      l1.length = l2.length →
      (l1.map byteHex).flatten = (l2.map byteHex).flatten → l1 = l2 := by
  intro l1
  induction l1 with
  | nil =>
    intro l2 _ _ hlen _
    cases l2 with
    | nil => rfl
    | cons b u => simp at hlen
  | cons a t ih =>
    intro l2 h1 h2 hlen hf
    cases l2 with
    | nil => simp at hlen
    | cons b u =>
      simp only [List.map_cons, List.flatten_cons] at hf
      have hinj := List.append_inj hf (by simp [byteHex])
      have hab : a = b :=
        byteHex_inj _ _ (h1 a (by simp)) (h2 b (by simp)) hinj.1
      have ht : t = u := by
        refine ih u (fun x hx => h1 x (by simp [hx])) (fun x hx => h2 x (by simp [hx])) ?_ hinj.2
        simpa using hlen
      rw [hab, ht]

theorem passwordSalt_inj :
    ∀ r1 r2 : Nat, r1 < 2 ^ 64 → r2 < 2 ^ 64 → passwordSalt r1 = passwordSalt r2 → r1 = r2 := by
  intro r1 r2 h1 h2 h
  have hd : (((toBytesBE 8 r1).map byteHex).flatten) = (((toBytesBE 8 r2).map byteHex).flatten) :=
    congrArg String.data h
  have hb : toBytesBE 8 r1 = toBytesBE 8 r2 :=
    flatten_byteHex_inj _ _ (toBytesBE_lt 8 r1) (toBytesBE_lt 8 r2)
      (by rw [toBytesBE_length, toBytesBE_length]) hd
  have hf := congrArg fromBytesBE hb
  rw [fromBytesBE_toBytesBE, fromBytesBE_toBytesBE] at hf
  rw [show (256 : Nat) ^ 8 = 2 ^ 64 from by norm_num] at hf
  rw [Nat.mod_eq_of_lt h1, Nat.mod_eq_of_lt h2] at hf
  exact hf

/-! ## Lemmas about the provisioning session -/

theorem tryFinallyGen_snd {σ : Type} (t : Except PyErr Unit × σ)
    (fin : σ → Except PyErr Unit × σ) : (tryFinallyGen t fin).2 = (fin t.2).2 := by
  unfold tryFinallyGen
  rcases fin t.2 with ⟨r, sf⟩
  cases r <;> rfl

theorem bindLoop_resolvHost (o : ProvOracle) :
    ∀ (l : List String) (s : ProvState), (bindLoop o l s).2.resolvHost = s.resolvHost := by
  intro l
  induction l with
  | nil => intro s; rfl
  | cons f rest ih =>
    intro s
    unfold bindLoop
    by_cases hf : o.bindOk f = true
    · simp only [hf, if_true]
      rw [ih]
    · simp [hf]

theorem umountLoop_resolvHost (o : ProvOracle) :
    ∀ (l : List String) (s : ProvState), (umountLoop o l s).2.resolvHost = s.resolvHost := by
  intro l
  induction l with
  | nil => intro s; rfl
  | cons f rest ih =>
    intro s
    unfold umountLoop
    by_cases hf : (s.binds.contains f && o.umountOk f) = true
    · simp only [hf, if_true]
      rw [ih]
    · rw [if_neg hf]

theorem umountLoop_rootHash (o : ProvOracle) :
    ∀ (l : List String) (s : ProvState), (umountLoop o l s).2.rootHash = s.rootHash := by
  intro l
  induction l with
  | nil => intro s; rfl
  | cons f rest ih =>
    intro s
    unfold umountLoop
    by_cases hf : (s.binds.contains f && o.umountOk f) = true
    · simp only [hf, if_true]
      rw [ih]
    · rw [if_neg hf]

theorem provFinally_rootHash (o : ProvOracle) (s : ProvState) :
    (provFinally o s).2.rootHash = s.rootHash := by
  unfold provFinally
  by_cases hr : o.rmResolvOk = true
  · simp only [hr, if_true]
    rw [umountLoop_rootHash]
  · simp [hr]

theorem provFinally_resolvHost (o : ProvOracle) (s : ProvState) (hr : o.rmResolvOk = true) :
    (provFinally o s).2.resolvHost = false := by
  unfold provFinally
  simp only [hr, if_true]
  rw [umountLoop_resolvHost]

theorem provTry_resolvHost (D : String → Nat → String → String) (o : ProvOracle)
    (s : ProvState) : (provTry D o s).2.resolvHost = s.resolvHost := by
  unfold provTry
  by_cases h1 : o.tdnfUpdateOk = true <;> by_cases h2 : o.tdnfInstallOk = true <;>
    by_cases h3 : o.usermodOk = true <;> simp [h1, h2, h3]

/-- The unmount loop of the provisioning `finally` block releases all three
binds when every `umount` succeeds. -/
theorem umountLoop_all (o : ProvOracle) (s : ProvState) (hu : ∀ f, o.umountOk f = true)
    (hbinds : s.binds = ["dev", "proc", "sys"]) :
    umountLoop o ["dev", "proc", "sys"] s = (.ok (), { s with binds := [] }) := by
  unfold umountLoop
  simp [hbinds, hu]
  unfold umountLoop
  simp [hbinds, hu, List.erase_cons]
  unfold umountLoop
  simp [hbinds, hu, List.erase_cons]
  unfold umountLoop
  rfl

theorem provTry_binds (D : String → Nat → String → String) (o : ProvOracle) (s : ProvState) :
    (provTry D o s).2.binds = s.binds := by
  unfold provTry
  by_cases h1 : o.tdnfUpdateOk = true <;> by_cases h2 : o.tdnfInstallOk = true <;>
    by_cases h3 : o.usermodOk = true <;> simp [h1, h2, h3]

theorem provFinally_release (o : ProvOracle) (hrm : o.rmResolvOk = true)
    (hu : ∀ f, o.umountOk f = true) (s : ProvState) (hs : s.binds = ["dev", "proc", "sys"]) :
    provFinally o s = (.ok (), { s with resolvHost := false, binds := [] }) := by
  unfold provFinally
  rw [if_pos hrm, umountLoop_all o _ hu (by simp [hs])]

/-- On the success path of the provisioning session (all commands succeed up
to and including `usermod`), the session reaches the `usermod` step and the
state records the password hash it applied. -/
theorem provisionSession_hash (D : String → Nat → String → String) (o : ProvOracle)
    (hb : ∀ f, o.bindOk f = true) (hc : o.cpResolvOk = true)
    (h3 : o.tdnfUpdateOk = true) (h4 : o.tdnfInstallOk = true) (h5 : o.usermodOk = true) :
    (provisionSession D o initProvState).2.rootHash =
      some (sha512CryptHash D (passwordSalt (o.randBits % 2 ^ 64)) 5000 "azl") := by
  unfold provisionSession
  simp only [bindLoop, hb, if_true, pstep, hc, initProvState]
  rw [tryFinallyGen_snd, provFinally_rootHash]
  simp [provTry, h3, h4, h5]

theorem cryptVerify_neq (D : String → Nat → String → String) (salt : String)
    (rounds : Nat) (pw pw' : String) (h : D salt rounds pw' ≠ D salt rounds pw) :
    cryptVerify D pw' (sha512CryptHash D salt rounds pw) = false := by
  simp only [cryptVerify, sha512CryptHash]
  simp only [Bool.and_eq_false_iff, beq_eq_false_iff_ne, ne_eq]
  right
  exact fun hh => h hh.symm

/-- C8: the root-password hash set by the provisioning session is the
SHA-512-crypt of the fixed password with rounds exactly 5000 (hence at least
5000) and a salt that is the 16-character hex encoding of the 8 random bytes
drawn from `getrandbits(64)` (the encoding is injective on the 2^64 possible
draws, so all 8 bytes of randomness reach the salt); it is rendered as a
standard crypt string, is not the plaintext (the stored digest is the
external digest function of salt, rounds and password, not the password
field itself), verifying the known password against it succeeds, and
verifying any string whose digest differs fails. -/
theorem password_hash_contract (D : String → Nat → String → String) (o : ProvOracle)
    (hb : ∀ f, o.bindOk f = true) (hc : o.cpResolvOk = true)
    (h3 : o.tdnfUpdateOk = true) (h4 : o.tdnfInstallOk = true) (h5 : o.usermodOk = true) :
    ∃ hsh : CryptHash,
      (provisionSession D o initProvState).2.rootHash = some hsh ∧
      hsh = sha512CryptHash D (passwordSalt (o.randBits % 2 ^ 64)) 5000 "azl" ∧
      5000 ≤ hsh.rounds ∧
      hsh.salt = passwordSalt (o.randBits % 2 ^ 64) ∧
      hsh.salt.length = 16 ∧
      (∀ r1 r2 : Nat, r1 < 2 ^ 64 → r2 < 2 ^ 64 →
        passwordSalt r1 = passwordSalt r2 → r1 = r2) ∧
      cryptVerify D "azl" hsh = true ∧
      (∀ pw : String, D hsh.salt hsh.rounds pw ≠ D hsh.salt hsh.rounds "azl" →
        cryptVerify D pw hsh = false) ∧
      renderCrypt hsh = "$6$" ++ passwordSalt (o.randBits % 2 ^ 64) ++ "$" ++
        D (passwordSalt (o.randBits % 2 ^ 64)) 5000 "azl" := by
  refine ⟨sha512CryptHash D (passwordSalt (o.randBits % 2 ^ 64)) 5000 "azl",
    provisionSession_hash D o hb hc h3 h4 h5, rfl, by norm_num [sha512CryptHash], rfl,
    passwordSalt_length _, passwordSalt_inj, ?_, ?_, ?_⟩
  · simp [cryptVerify, sha512CryptHash]
  · intro pw hne
    exact cryptVerify_neq D _ _ _ _ hne
  · apply String.ext
    simp only [renderCrypt, sha512CryptHash, String.data_append, List.append_assoc]
    rfl

/-- Witness for `password_hash_contract` at the identity-like digest function,
the all-success oracle and a zero random draw. -/
theorem password_hash_contract_witness :
    ∃ hsh : CryptHash,
      (provisionSession (fun _ _ pw => pw)
          ⟨fun _ => true, true, true, true, true, true, fun _ => true, 0⟩
          initProvState).2.rootHash = some hsh ∧
      hsh = sha512CryptHash (fun _ _ pw => pw) (passwordSalt (0 % 2 ^ 64)) 5000 "azl" ∧
      5000 ≤ hsh.rounds ∧
      hsh.salt = passwordSalt (0 % 2 ^ 64) ∧
      hsh.salt.length = 16 ∧
      (∀ r1 r2 : Nat, r1 < 2 ^ 64 → r2 < 2 ^ 64 →
        passwordSalt r1 = passwordSalt r2 → r1 = r2) ∧
      cryptVerify (fun _ _ pw => pw) "azl" hsh = true ∧
      (∀ pw : String, pw ≠ "azl" → cryptVerify (fun _ _ pw => pw) pw hsh = false) ∧
      renderCrypt hsh = "$6$" ++ passwordSalt (0 % 2 ^ 64) ++ "$" ++ "azl" :=
  password_hash_contract (fun _ _ pw => pw)
    ⟨fun _ => true, true, true, true, true, true, fun _ => true, 0⟩
    (fun _ => rfl) rfl rfl rfl rfl

/-- C2 counterexample: inject a `tdnf update` failure together with a failure
of the `umount dev` release step.  The session then reports the `umount`
failure — the release failure replaces (masks) the original error rather than
being a secondary warning — and all three pseudo-filesystems are still bound
when the session returns, refuting both parts of the claim as stated. -/
theorem provisioning_masking_cex :
    provisionSession (fun _ _ _ => "")
        ⟨fun _ => true, true, false, true, true, true, fun f => !(f == "dev"), 0⟩
        initProvState =
      (.error (.calledProcessError "umount dev"),
       ⟨["dev", "proc", "sys"], false, some fstabContent, some "azurelinux\n", none⟩) ∧
    PyErr.calledProcessError "umount dev" ≠ PyErr.calledProcessError "chroot tdnf update" := by
  decide

/-- C2 as amended: when the release commands of the `finally` block (the
`resolv.conf` removal and the three unmounts) all succeed, a failure of any
privileged command of the chroot phase leaves all three pseudo-filesystem
binds released, the host resolv.conf copy removed, and the error reported to
the caller is exactly the original command failure.  (As the counterexample
shows, a failing release command instead masks the original error and aborts
the remaining releases; and a failure of the bind loop or of the resolv.conf
copy, which run before the `try` scope, leaves earlier binds in place.) -/
theorem provisioning_cleanup_releases (D : String → Nat → String → String) (o : ProvOracle)
    (hb : ∀ f, o.bindOk f = true) (hc : o.cpResolvOk = true) (hrm : o.rmResolvOk = true)
    (hu : ∀ f, o.umountOk f = true) :
    (provisionSession D o initProvState).2.binds = [] ∧
    (provisionSession D o initProvState).2.resolvHost = false ∧
    (provisionSession D o initProvState).1 =
      (if o.tdnfUpdateOk = false then .error (.calledProcessError "chroot tdnf update")
       else if o.tdnfInstallOk = false then .error (.calledProcessError "chroot tdnf install")
       else if o.usermodOk = false then .error (.calledProcessError "chroot usermod -p root")
       else .ok ()) := by
  have hpre : provisionSession D o initProvState =
      tryFinallyGen
        (provTry D o ⟨["dev", "proc", "sys"], true, some fstabContent,
          some "azurelinux\n", none⟩)
        (provFinally o) := by
    unfold provisionSession
    simp only [bindLoop, hb, if_true, pstep, hc]
    rfl
  have hfin := provFinally_release o hrm hu
    (provTry D o ⟨["dev", "proc", "sys"], true, some fstabContent,
      some "azurelinux\n", none⟩).2
    (by rw [provTry_binds])
  refine ⟨?_, ?_, ?_⟩
  · rw [hpre, tryFinallyGen_snd, hfin]
  · rw [hpre, tryFinallyGen_snd, hfin]
  · rw [hpre]
    unfold tryFinallyGen
    rw [hfin]
    unfold provTry
    by_cases h1 : o.tdnfUpdateOk = true <;> by_cases h2 : o.tdnfInstallOk = true <;>
      by_cases h3 : o.usermodOk = true <;>
        simp [h1, h2, h3, Bool.not_eq_true]

/-- Witness for `provisioning_cleanup_releases`: a `tdnf update` failure with
all release commands succeeding. -/
theorem provisioning_cleanup_releases_witness :
    (provisionSession (fun _ _ _ => "")
        ⟨fun _ => true, true, false, true, true, true, fun _ => true, 0⟩
        initProvState).2.binds = [] ∧
    (provisionSession (fun _ _ _ => "")
        ⟨fun _ => true, true, false, true, true, true, fun _ => true, 0⟩
        initProvState).2.resolvHost = false ∧
    (provisionSession (fun _ _ _ => "")
        ⟨fun _ => true, true, false, true, true, true, fun _ => true, 0⟩
        initProvState).1 = .error (.calledProcessError "chroot tdnf update") :=
  provisioning_cleanup_releases (fun _ _ _ => "")
    ⟨fun _ => true, true, false, true, true, true, fun _ => true, 0⟩
    (fun _ => rfl) rfl rfl (fun _ => rfl)

/-- C10 counterexample: if the `rm -f etc/resolv.conf` release command itself
fails (a failed privileged command, on which the session aborts), the host
resolv.conf copy is still present in the replacement tree when the session
returns. -/
theorem resolv_persists_cex :
    provisionSession (fun _ _ _ => "x")
        ⟨fun _ => true, true, true, true, true, false, fun _ => true, 0⟩
        initProvState =
      (.error (.calledProcessError "rm -f resolv.conf"),
       ⟨["dev", "proc", "sys"], true, some fstabContent, some "azurelinux\n",
        some (sha512CryptHash (fun _ _ _ => "x") (passwordSalt 0) 5000 "azl")⟩) := by
  decide

/-- C10 as amended: whenever the provisioning session ends — on success, or
on any abort — the host `etc/resolv.conf` copy is absent from the replacement
tree, provided the removal command itself succeeds (aborts that happen before
the copy never create the file; once the copy exists, the `finally` block's
removal runs first among the release steps). -/
theorem resolv_absent_when_rm_succeeds (D : String → Nat → String → String)
    (o : ProvOracle) (hrm : o.rmResolvOk = true) :
    (provisionSession D o initProvState).2.resolvHost = false := by
  unfold provisionSession
  rcases hbl : bindLoop o ["dev", "proc", "sys"] initProvState with ⟨rb, sb⟩
  have hsb : sb.resolvHost = false := by
    have h := bindLoop_resolvHost o ["dev", "proc", "sys"] initProvState
    rw [hbl] at h
    exact h
  cases rb with
  | error e => simpa [pstep] using hsb
  | ok u =>
    simp only [pstep]
    by_cases hcp : o.cpResolvOk = true
    · simp only [hcp, if_true]
      rw [tryFinallyGen_snd]
      exact provFinally_resolvHost o _ hrm
    · simp only [Bool.not_eq_true] at hcp
      simpa [hcp] using hsb

/-- Witness for `resolv_absent_when_rm_succeeds`: an abort caused by a
`tdnf install` failure, with the removal succeeding. -/
theorem resolv_absent_witness :
    (provisionSession (fun _ _ _ => "")
        ⟨fun _ => true, true, true, false, true, true, fun _ => true, 0⟩
        initProvState).2.resolvHost = false :=
  resolv_absent_when_rm_succeeds (fun _ _ _ => "")
    ⟨fun _ => true, true, true, false, true, true, fun _ => true, 0⟩ rfl

/-! ## Lemmas about the device pipeline -/

theorem frame_refl (s : DevState) : sameMountFrame s s :=
  ⟨rfl, rfl, rfl, rfl, rfl, rfl⟩

theorem frame_trans {a b c : DevState} (h1 : sameMountFrame a b) (h2 : sameMountFrame b c) :
    sameMountFrame a c := by
  obtain ⟨x1, x2, x3, x4, x5, x6⟩ := h1
  obtain ⟨y1, y2, y3, y4, y5, y6⟩ := h2
  exact ⟨y1.trans x1, y2.trans x2, y3.trans x3, y4.trans x4, y5.trans x5, y6.trans x6⟩

theorem pstep_frame {s : DevState} {r : Except PyErr Unit × DevState}
    {f : DevState → Except PyErr Unit × DevState}
    (h1 : sameMountFrame s r.2) (h2 : ∀ t : DevState, sameMountFrame t (f t).2) :
    sameMountFrame s (pstep r f).2 := by
  rcases r with ⟨e, st⟩
  cases e with
  | ok u => exact frame_trans h1 (h2 st)
  | error err => exact h1

theorem archiveStage_frame (o : DevOracle) (s : DevState) :
    sameMountFrame s (archiveStage o s).2 := by
  unfold archiveStage
  cases hd : dirsToBackup s.rootFs with
  | error e =>
    simp only [hd]
    exact frame_refl s
  | ok d =>
    simp only [hd]
    by_cases he : d.isEmpty <;> by_cases ht : o.tarOk = true <;> by_cases hm : o.mvOk = true <;>
      simp [he, ht, hm, sameMountFrame, List.filter_append, isMountEv]

theorem wipeStage_frame (o : DevOracle) (s : DevState) :
    sameMountFrame s (wipeStage o s).2 := by
  simp [wipeStage, sameMountFrame]

theorem copyStage_frame (o : DevOracle) (repl : FS) (s : DevState) :
    sameMountFrame s (copyStage o repl s).2 := by
  simp [copyStage, sameMountFrame]

theorem restoreStage_frame (o : DevOracle) (s : DevState) :
    sameMountFrame s (restoreStage o s).2 := by
  unfold restoreStage
  by_cases h1 : s.tmpTar = true <;> by_cases h2 : o.tarExtractOk = true <;>
    by_cases h3 : o.rmTmpTarOk = true <;>
      simp [h1, h2, h3, sameMountFrame, List.filter_append, isTarEv, isMountEv]

theorem middleStages_frame (o : DevOracle) (repl : FS) (s : DevState) :
    sameMountFrame s (middleStages o repl s).2 := by
  unfold middleStages
  exact pstep_frame (archiveStage_frame o s)
    (fun t => pstep_frame (wipeStage_frame o t)
      (fun u => pstep_frame (copyStage_frame o repl u)
        (fun v => restoreStage_frame o v)))

theorem wipeStage_tmpTar (o : DevOracle) (s : DevState) :
    (wipeStage o s).2.tmpTar = s.tmpTar := rfl

theorem wipeStage_trace (o : DevOracle) (s : DevState) :
    (wipeStage o s).2.trace = s.trace := rfl

theorem copyStage_tmpTar (o : DevOracle) (repl : FS) (s : DevState) :
    (copyStage o repl s).2.tmpTar = s.tmpTar := rfl

theorem copyStage_trace (o : DevOracle) (repl : FS) (s : DevState) :
    (copyStage o repl s).2.trace = s.trace := rfl

theorem archive_skip (o : DevOracle) (s : DevState) (h : dirsToBackup s.rootFs = .ok []) :
    archiveStage o s = (.ok (), s) := by
  simp [archiveStage, h]

theorem restore_skip (o : DevOracle) (s : DevState) (h : s.tmpTar = false) :
    restoreStage o s = (.ok (), s) := by
  simp [restoreStage, h]

theorem finallyStage_rootFs (o : DevOracle) (s : DevState) :
    (finallyStage o s).2.rootFs = s.rootFs := by
  unfold finallyStage
  by_cases h1 : (s.mountedBoot && o.umountBootOk) = true <;>
    by_cases h2 : (s.mountedRoot && o.umountRootOk) = true <;>
      by_cases h3 : (s.loopAttached && o.detachOk) = true <;>
        simp [h1, h2, h3]

theorem finallyStage_tmpTar (o : DevOracle) (s : DevState) :
    (finallyStage o s).2.tmpTar = s.tmpTar := by
  unfold finallyStage
  by_cases h1 : (s.mountedBoot && o.umountBootOk) = true <;>
    by_cases h2 : (s.mountedRoot && o.umountRootOk) = true <;>
      by_cases h3 : (s.loopAttached && o.detachOk) = true <;>
        simp [h1, h2, h3]

theorem finallyStage_tarTrace (o : DevOracle) (s : DevState) :
    (finallyStage o s).2.trace.filter isTarEv = s.trace.filter isTarEv := by
  unfold finallyStage
  by_cases h1 : (s.mountedBoot && o.umountBootOk) = true <;>
    by_cases h2 : (s.mountedRoot && o.umountRootOk) = true <;>
      by_cases h3 : (s.loopAttached && o.detachOk) = true <;>
        simp [h1, h2, h3, List.filter_append, isTarEv]

theorem finallyStage_trace_mem (o : DevOracle) (s : DevState) (a : Ev) (h : a ∈ s.trace) :
    a ∈ (finallyStage o s).2.trace := by
  unfold finallyStage
  by_cases h1 : (s.mountedBoot && o.umountBootOk) = true <;>
    by_cases h2 : (s.mountedRoot && o.umountRootOk) = true <;>
      by_cases h3 : (s.loopAttached && o.detachOk) = true <;>
        simp [h1, h2, h3, List.mem_append, h]

theorem finallyStage_ok (o : DevOracle) (s : DevState)
    (hb : s.mountedBoot = true) (hr : s.mountedRoot = true) (hl : s.loopAttached = true)
    (h8 : o.umountBootOk = true) (h9 : o.umountRootOk = true) (h10 : o.detachOk = true) :
    finallyStage o s =
      (.ok (),
       { s with
          mountedBoot := false, mountedRoot := false, loopAttached := false,
          bootDir := false, rootDir := false,
          trace := s.trace ++ [Ev.umountBoot, Ev.umountRoot, Ev.loopDetach] }) := by
  unfold finallyStage
  simp [hb, hr, hl, h8, h9, h10]

theorem tryFinallyGen_of_ok {σ : Type} (t : Except PyErr Unit × σ)
    (fin : σ → Except PyErr Unit × σ) (sf : σ) (h : fin t.2 = (.ok (), sf)) :
    tryFinallyGen t fin = (t.1, sf) := by
  unfold tryFinallyGen
  rw [h]

theorem devicePipeline_reduce (o : DevOracle) (repl fs : FS)
    (h1 : o.losetupOk = true) (h2 : o.dosfsckExit = 0) (h3 : o.fsckExit = 0)
    (h4 : o.mkdirBootOk = true) (h5 : o.mkdirRootOk = true)
    (h6 : o.mountBootOk = true) (h7 : o.mountRootOk = true) :
    devicePipeline o repl (initDevState fs) =
      tryFinallyGen (middleStages o repl (mountedDevState fs)) (finallyStage o) := by
  unfold devicePipeline tryBody
  simp only [runLosetup, h1, if_true, pstep, runDosfsck, h2, runFsckExt4, h3,
    mkBootDir, h4, mkRootDir, h5, mountBootStep, h6, mountRootStep, h7]
  rfl

theorem devicePipelineNoRestore_reduce (o : DevOracle) (repl fs : FS)
    (h1 : o.losetupOk = true) (h2 : o.dosfsckExit = 0) (h3 : o.fsckExit = 0)
    (h4 : o.mkdirBootOk = true) (h5 : o.mkdirRootOk = true)
    (h6 : o.mountBootOk = true) (h7 : o.mountRootOk = true) :
    devicePipelineNoRestore o repl (initDevState fs) =
      tryFinallyGen (middleStagesNoRestore o repl (mountedDevState fs)) (finallyStage o) := by
  unfold devicePipelineNoRestore tryBodyNoRestore
  simp only [runLosetup, h1, if_true, pstep, runDosfsck, h2, runFsckExt4, h3,
    mkBootDir, h4, mkRootDir, h5, mountBootStep, h6, mountRootStep, h7]
  rfl

theorem pipelineReleaseShape (o : DevOracle) (repl fs : FS)
    (h1 : o.losetupOk = true) (h2 : o.dosfsckExit = 0) (h3 : o.fsckExit = 0)
    (h4 : o.mkdirBootOk = true) (h5 : o.mkdirRootOk = true)
    (h6 : o.mountBootOk = true) (h7 : o.mountRootOk = true)
    (h8 : o.umountBootOk = true) (h9 : o.umountRootOk = true) (h10 : o.detachOk = true) :
    ∃ (r : Except PyErr Unit) (sm : DevState),
      middleStages o repl (mountedDevState fs) = (r, sm) ∧
      sameMountFrame (mountedDevState fs) sm ∧
      devicePipeline o repl (initDevState fs) =
        (r,
         { sm with
            mountedBoot := false, mountedRoot := false, loopAttached := false,
            bootDir := false, rootDir := false,
            trace := sm.trace ++ [Ev.umountBoot, Ev.umountRoot, Ev.loopDetach] }) := by
  obtain ⟨r, sm, hm⟩ : ∃ r sm, middleStages o repl (mountedDevState fs) = (r, sm) :=
    ⟨_, _, rfl⟩
  have hframe := middleStages_frame o repl (mountedDevState fs)
  rw [hm] at hframe
  refine ⟨r, sm, hm, hframe, ?_⟩
  have hfin := finallyStage_ok o sm hframe.2.2.2.1 hframe.2.2.2.2.1 hframe.1 h8 h9 h10
  rw [devicePipeline_reduce o repl fs h1 h2 h3 h4 h5 h6 h7,
    tryFinallyGen_of_ok _ _ _ (by rw [hm]; exact hfin), hm]

/-- C1 counterexample: inject a failure of the boot-partition filesystem
check (`dosfsck` exit status 2), all other commands succeeding.  The check
runs before the `try`/`finally` block, so the pipeline call returns with the
loop device still attached — the release steps are not reached for this
stage, refuting the claim as stated. -/
theorem check_failure_leaves_loop_cex :
    (devicePipeline
        ⟨true, 2, 0, true, true, true, true, true, true, fun _ => true, fun _ => true,
          true, true, true, true, true⟩ [] (initDevState [])).2.loopAttached = true ∧
    (devicePipeline
        ⟨true, 2, 0, true, true, true, true, true, true, fun _ => true, fun _ => true,
          true, true, true, true, true⟩ [] (initDevState [])).1 =
      .error (.calledProcessError "dosfsck -a p1") := by
  decide

/-- C1 as amended: for every injected failure at the stages that run after
both partitions are mounted (archive, wipe, copy, restore — the oracle's
outcomes for those commands are unconstrained here), and with the release
commands themselves succeeding, the loop device is detached, both partitions
are unmounted and both temporary mount-point directories are removed by the
time the pipeline call returns.  (As the counterexample shows, a failure
during the filesystem checks leaves the loop device attached, because the
checks run before the `try`/`finally` scope; a failure while mounting aborts
the release sequence at the first `umount` of a not-mounted target; and the
release steps are not unconditional — each release command runs with
`check=True`, so a release failure skips the remaining release steps.) -/
theorem release_after_replacement_failure (o : DevOracle) (repl fs : FS)
    (h1 : o.losetupOk = true) (h2 : o.dosfsckExit = 0) (h3 : o.fsckExit = 0)
    (h4 : o.mkdirBootOk = true) (h5 : o.mkdirRootOk = true)
    (h6 : o.mountBootOk = true) (h7 : o.mountRootOk = true)
    (h8 : o.umountBootOk = true) (h9 : o.umountRootOk = true) (h10 : o.detachOk = true) :
    (devicePipeline o repl (initDevState fs)).2.loopAttached = false ∧
    (devicePipeline o repl (initDevState fs)).2.mountedBoot = false ∧
    (devicePipeline o repl (initDevState fs)).2.mountedRoot = false ∧
    (devicePipeline o repl (initDevState fs)).2.bootDir = false ∧
    (devicePipeline o repl (initDevState fs)).2.rootDir = false := by
  obtain ⟨r, sm, hm, hframe, hpipe⟩ :=
    pipelineReleaseShape o repl fs h1 h2 h3 h4 h5 h6 h7 h8 h9 h10
  rw [hpipe]
  exact ⟨rfl, rfl, rfl, rfl, rfl⟩

/-- Witness for `release_after_replacement_failure`: a `tar` failure injected
at the archive stage of a donor root with `usr/lib/modules`, every release
command succeeding. -/
theorem release_after_replacement_failure_witness :
    (devicePipeline
        ⟨true, 0, 0, true, true, true, true, false, true, fun _ => true, fun _ => true,
          true, true, true, true, true⟩ []
        (initDevState [⟨["usr"], true⟩, ⟨["usr", "lib"], true⟩,
          ⟨["usr", "lib", "modules"], true⟩])).2.loopAttached = false ∧
    (devicePipeline
        ⟨true, 0, 0, true, true, true, true, false, true, fun _ => true, fun _ => true,
          true, true, true, true, true⟩ []
        (initDevState [⟨["usr"], true⟩, ⟨["usr", "lib"], true⟩,
          ⟨["usr", "lib", "modules"], true⟩])).2.mountedBoot = false ∧
    (devicePipeline
        ⟨true, 0, 0, true, true, true, true, false, true, fun _ => true, fun _ => true,
          true, true, true, true, true⟩ []
        (initDevState [⟨["usr"], true⟩, ⟨["usr", "lib"], true⟩,
          ⟨["usr", "lib", "modules"], true⟩])).2.mountedRoot = false ∧
    (devicePipeline
        ⟨true, 0, 0, true, true, true, true, false, true, fun _ => true, fun _ => true,
          true, true, true, true, true⟩ []
        (initDevState [⟨["usr"], true⟩, ⟨["usr", "lib"], true⟩,
          ⟨["usr", "lib", "modules"], true⟩])).2.bootDir = false ∧
    (devicePipeline
        ⟨true, 0, 0, true, true, true, true, false, true, fun _ => true, fun _ => true,
          true, true, true, true, true⟩ []
        (initDevState [⟨["usr"], true⟩, ⟨["usr", "lib"], true⟩,
          ⟨["usr", "lib", "modules"], true⟩])).2.rootDir = false :=
  release_after_replacement_failure
    ⟨true, 0, 0, true, true, true, true, false, true, fun _ => true, fun _ => true,
      true, true, true, true, true⟩ []
    [⟨["usr"], true⟩, ⟨["usr", "lib"], true⟩, ⟨["usr", "lib", "modules"], true⟩]
    rfl rfl rfl rfl rfl rfl rfl rfl rfl rfl

/-- C4 counterexample: a root-partition check that performed repairs
(`fsck.ext4` exit status 1, "file system errors corrected" in the e2fsck
convention) is treated by `check=True` like any other nonzero status: the
pipeline aborts with the check's `CalledProcessError` before any mount is
attempted, instead of proceeding to mount.  The final state shows no mount
happened (both mount flags false, no mount events, no mount points). -/
theorem repair_exit_aborts_cex :
    devicePipeline
        ⟨true, 0, 1, true, true, true, true, true, true, fun _ => true, fun _ => true,
          true, true, true, true, true⟩ [] (initDevState []) =
      (.error (.calledProcessError "fsck.ext4 -y p2"),
       { initDevState [] with loopAttached := true, trace := [Ev.loopAttach] }) ∧
    Ev.mountBoot ∉ (devicePipeline
        ⟨true, 0, 1, true, true, true, true, true, true, fun _ => true, fun _ => true,
          true, true, true, true, true⟩ [] (initDevState [])).2.trace := by
  decide

/-- C4 as amended: any nonzero exit status from either filesystem check —
including status 1, which in the `dosfsck`/`fsck.ext4` conventions means
errors were found and corrected (repairs) — aborts the pipeline with that
check's `CalledProcessError` before any mount is attempted (the returned
state still has nothing mounted and no mount events); only when both checks
exit 0 does the pipeline proceed to mount the partitions. -/
theorem checks_abort_before_mount (o : DevOracle) (repl fs : FS)
    (hl : o.losetupOk = true) :
    (o.dosfsckExit ≠ 0 →
      devicePipeline o repl (initDevState fs) =
        (.error (.calledProcessError "dosfsck -a p1"),
         { initDevState fs with loopAttached := true, trace := [Ev.loopAttach] })) ∧
    (o.dosfsckExit = 0 → o.fsckExit ≠ 0 →
      devicePipeline o repl (initDevState fs) =
        (.error (.calledProcessError "fsck.ext4 -y p2"),
         { initDevState fs with loopAttached := true, trace := [Ev.loopAttach] })) ∧
    (o.dosfsckExit = 0 → o.fsckExit = 0 → o.mkdirBootOk = true → o.mkdirRootOk = true →
      o.mountBootOk = true →
      Ev.mountBoot ∈ (devicePipeline o repl (initDevState fs)).2.trace) := by
  refine ⟨?_, ?_, ?_⟩
  · intro hd
    unfold devicePipeline
    simp [runLosetup, hl, pstep, runDosfsck, hd, initDevState]
  · intro hd hf
    unfold devicePipeline
    simp [runLosetup, hl, pstep, runDosfsck, hd, runFsckExt4, hf, initDevState]
  · intro hd hf h4 h5 h6
    by_cases h7 : o.mountRootOk = true
    · obtain ⟨r, sm, hm, hframe, hred⟩ :
          ∃ r sm, middleStages o repl (mountedDevState fs) = (r, sm) ∧
            sameMountFrame (mountedDevState fs) sm ∧
            devicePipeline o repl (initDevState fs) =
              tryFinallyGen (middleStages o repl (mountedDevState fs)) (finallyStage o) := by
        refine ⟨_, _, rfl, ?_, devicePipeline_reduce o repl fs hl hd hf h4 h5 h6 h7⟩
        exact middleStages_frame o repl (mountedDevState fs)
      rw [hred, tryFinallyGen_snd, hm]
      apply finallyStage_trace_mem
      have hfe : sm.trace.filter isMountEv = [Ev.mountBoot, Ev.mountRoot] := by
        rw [hframe.2.2.2.2.2]
        rfl
      have : Ev.mountBoot ∈ sm.trace.filter isMountEv := by
        rw [hfe]
        simp
      exact List.mem_of_mem_filter this
    · have hred : devicePipeline o repl (initDevState fs) =
          tryFinallyGen (.error (.calledProcessError "mount p2 root_mount"),
            ⟨true, true, true, true, false, fs, false, [], [Ev.loopAttach, Ev.mountBoot]⟩)
            (finallyStage o) := by
        unfold devicePipeline tryBody
        simp [runLosetup, hl, pstep, runDosfsck, hd, runFsckExt4, hf, mkBootDir, h4,
          mkRootDir, h5, mountBootStep, h6, mountRootStep, h7, initDevState]
      rw [hred, tryFinallyGen_snd]
      apply finallyStage_trace_mem
      simp

/-- Witness for `checks_abort_before_mount`: the repairs-performed exit
status 1 on the root-partition check aborts the concrete pipeline run with
the check's error, before anything was mounted. -/
theorem checks_abort_before_mount_witness :
    devicePipeline
        ⟨true, 0, 1, false, false, false, false, true, true, fun _ => true, fun _ => true,
          true, true, true, true, true⟩ [] (initDevState []) =
      (.error (.calledProcessError "fsck.ext4 -y p2"),
       { initDevState [] with loopAttached := true, trace := [Ev.loopAttach] }) :=
  (checks_abort_before_mount
    ⟨true, 0, 1, false, false, false, false, true, true, fun _ => true, fun _ => true,
      true, true, true, true, true⟩ [] [] rfl).2.1 rfl (by decide)

/-- C5 counterexample: in a fully successful pipeline run, the boot partition
is mounted first and also unmounted first — the recorded mount/unmount event
sequence is mount boot, mount root, unmount boot, unmount root — so the
claim's "root is unmounted before boot" fails at this concrete run (the code
unmounts in the same order as it mounted, lines 166-167). -/
theorem unmount_not_reverse_cex :
    (devicePipeline
        ⟨true, 0, 0, true, true, true, true, true, true, fun _ => true, fun _ => true,
          true, true, true, true, true⟩ []
        (initDevState [⟨["usr"], true⟩, ⟨["usr", "lib"], true⟩])).2.trace =
      [Ev.loopAttach, Ev.mountBoot, Ev.mountRoot, Ev.umountBoot, Ev.umountRoot,
        Ev.loopDetach] ∧
    (devicePipeline
        ⟨true, 0, 0, true, true, true, true, true, true, fun _ => true, fun _ => true,
          true, true, true, true, true⟩ []
        (initDevState [⟨["usr"], true⟩, ⟨["usr", "lib"], true⟩])).2.trace.filter isMountEv =
      [Ev.mountBoot, Ev.mountRoot, Ev.umountBoot, Ev.umountRoot] := by
  decide

/-- C5 as amended: in every pipeline run that reaches both mounts and whose
release commands succeed — the stages in between may fail arbitrarily — the
two partitions are unmounted in the SAME order as they were mounted: boot is
mounted before root, and boot is unmounted before root.  This release does
run even when a later pipeline stage fails. -/
theorem unmount_same_order (o : DevOracle) (repl fs : FS)
    (h1 : o.losetupOk = true) (h2 : o.dosfsckExit = 0) (h3 : o.fsckExit = 0)
    (h4 : o.mkdirBootOk = true) (h5 : o.mkdirRootOk = true)
    (h6 : o.mountBootOk = true) (h7 : o.mountRootOk = true)
    (h8 : o.umountBootOk = true) (h9 : o.umountRootOk = true) (h10 : o.detachOk = true) :
    (devicePipeline o repl (initDevState fs)).2.trace.filter isMountEv =
      [Ev.mountBoot, Ev.mountRoot, Ev.umountBoot, Ev.umountRoot] := by
  obtain ⟨r, sm, hm, hframe, hpipe⟩ :=
    pipelineReleaseShape o repl fs h1 h2 h3 h4 h5 h6 h7 h8 h9 h10
  rw [hpipe]
  show (sm.trace ++ [Ev.umountBoot, Ev.umountRoot, Ev.loopDetach]).filter isMountEv = _
  rw [List.filter_append, hframe.2.2.2.2.2]
  rfl

/-- Witness for `unmount_same_order`: a run whose wipe stage fails (every
`rm` refused); the unmount order is still boot first, root second. -/
theorem unmount_same_order_witness :
    (devicePipeline
        ⟨true, 0, 0, true, true, true, true, true, true, fun _ => false, fun _ => true,
          true, true, true, true, true⟩ []
        (initDevState [⟨["usr"], true⟩, ⟨["usr", "lib"], true⟩])).2.trace.filter isMountEv =
      [Ev.mountBoot, Ev.mountRoot, Ev.umountBoot, Ev.umountRoot] :=
  unmount_same_order
    ⟨true, 0, 0, true, true, true, true, true, true, fun _ => false, fun _ => true,
      true, true, true, true, true⟩ []
    [⟨["usr"], true⟩, ⟨["usr", "lib"], true⟩]
    rfl rfl rfl rfl rfl rfl rfl rfl rfl rfl

theorem middle_eq_noRestore (o : DevOracle) (repl : FS) (s : DevState)
    (h : dirsToBackup s.rootFs = .ok []) (ht : s.tmpTar = false) :
    middleStages o repl s = middleStagesNoRestore o repl s := by
  unfold middleStages middleStagesNoRestore
  rw [archive_skip o s h]
  simp only [pstep]
  rcases hw : wipeStage o s with ⟨r1, sw⟩
  have hswt : sw.tmpTar = false := by
    have hx := wipeStage_tmpTar o s
    rw [hw] at hx
    rw [hx, ht]
  cases r1 with
  | error e => rfl
  | ok u =>
    simp only [pstep]
    rcases hc : copyStage o repl sw with ⟨r2, sc⟩
    have hsct : sc.tmpTar = false := by
      have hx := copyStage_tmpTar o repl sw
      rw [hc] at hx
      rw [hx, hswt]
    cases r2 with
    | error e => rfl
    | ok u2 =>
      simp only [pstep]
      cases u2
      exact restore_skip o sc hsct

theorem middle_tar_state (o : DevOracle) (repl : FS) (s : DevState)
    (h : dirsToBackup s.rootFs = .ok []) (ht : s.tmpTar = false) :
    (middleStages o repl s).2.tmpTar = false ∧
    (middleStages o repl s).2.trace.filter isTarEv = s.trace.filter isTarEv := by
  unfold middleStages
  rw [archive_skip o s h]
  simp only [pstep]
  rcases hw : wipeStage o s with ⟨r1, sw⟩
  have hswt : sw.tmpTar = false := by
    have hx := wipeStage_tmpTar o s
    rw [hw] at hx
    rw [hx, ht]
  have hswtr : sw.trace = s.trace := by
    have hx := wipeStage_trace o s
    rw [hw] at hx
    exact hx
  cases r1 with
  | error e => exact ⟨hswt, by rw [hswtr]⟩
  | ok u =>
    simp only [pstep]
    rcases hc : copyStage o repl sw with ⟨r2, sc⟩
    have hsct : sc.tmpTar = false := by
      have hx := copyStage_tmpTar o repl sw
      rw [hc] at hx
      rw [hx, hswt]
    have hsctr : sc.trace = s.trace := by
      have hx := copyStage_trace o repl sw
      rw [hc] at hx
      rw [hx, hswtr]
    cases r2 with
    | error e => exact ⟨hsct, by rw [hsctr]⟩
    | ok u2 =>
      cases u2
      simp only [pstep]
      rw [restore_skip o sc hsct]
      exact ⟨hsct, by rw [hsctr]⟩

/-- C6: in every run in which the resolved preservation set is empty, no
archive file is ever created (no tar events occur and the staging path
`/tmp/raspbian_preserve.tar` stays absent), and the restore step is a no-op:
the whole pipeline computes exactly the same result and state as the pipeline
with the restore step removed, for every failure injection.  (The run starts
from a fresh state with no stale archive at the staging path, as
`initDevState` records.) -/
theorem empty_preservation_restore_noop (o : DevOracle) (repl fs : FS)
    (h : dirsToBackup fs = .ok []) :
    devicePipeline o repl (initDevState fs) =
      devicePipelineNoRestore o repl (initDevState fs) ∧
    (devicePipeline o repl (initDevState fs)).2.trace.filter isTarEv = [] ∧
    (devicePipeline o repl (initDevState fs)).2.tmpTar = false := by
  by_cases h1 : o.losetupOk = true
  case neg =>
    refine ⟨?_, ?_, ?_⟩ <;>
      simp [devicePipeline, devicePipelineNoRestore, runLosetup, h1, pstep, initDevState]
  by_cases h2 : o.dosfsckExit = 0
  case neg =>
    refine ⟨?_, ?_, ?_⟩ <;>
      simp [devicePipeline, devicePipelineNoRestore, runLosetup, h1, runDosfsck, h2,
        pstep, initDevState, isTarEv]
  by_cases h3 : o.fsckExit = 0
  case neg =>
    refine ⟨?_, ?_, ?_⟩ <;>
      simp [devicePipeline, devicePipelineNoRestore, runLosetup, h1, runDosfsck, h2,
        runFsckExt4, h3, pstep, initDevState, isTarEv]
  by_cases h4 : o.mkdirBootOk = true
  case neg =>
    refine ⟨?_, ?_, ?_⟩ <;>
      simp [devicePipeline, devicePipelineNoRestore, runLosetup, h1, runDosfsck, h2,
        runFsckExt4, h3, mkBootDir, h4, pstep, initDevState, isTarEv]
  by_cases h5 : o.mkdirRootOk = true
  case neg =>
    refine ⟨?_, ?_, ?_⟩ <;>
      simp [devicePipeline, devicePipelineNoRestore, runLosetup, h1, runDosfsck, h2,
        runFsckExt4, h3, mkBootDir, h4, mkRootDir, h5, pstep, initDevState, isTarEv]
  by_cases h6 : o.mountBootOk = true
  case neg =>
    have hshape : devicePipeline o repl (initDevState fs) =
        tryFinallyGen (.error (.calledProcessError "mount p1 boot_mount"),
          ⟨true, true, true, false, false, fs, false, [], [Ev.loopAttach]⟩)
          (finallyStage o) := by
      unfold devicePipeline tryBody
      simp [runLosetup, h1, pstep, runDosfsck, h2, runFsckExt4, h3, mkBootDir, h4,
        mkRootDir, h5, mountBootStep, h6, initDevState]
    have hshapeN : devicePipelineNoRestore o repl (initDevState fs) =
        tryFinallyGen (.error (.calledProcessError "mount p1 boot_mount"),
          ⟨true, true, true, false, false, fs, false, [], [Ev.loopAttach]⟩)
          (finallyStage o) := by
      unfold devicePipelineNoRestore tryBodyNoRestore
      simp [runLosetup, h1, pstep, runDosfsck, h2, runFsckExt4, h3, mkBootDir, h4,
        mkRootDir, h5, mountBootStep, h6, initDevState]
    refine ⟨by rw [hshape, hshapeN], ?_, ?_⟩
    · rw [hshape, tryFinallyGen_snd, finallyStage_tarTrace]
      rfl
    · rw [hshape, tryFinallyGen_snd, finallyStage_tmpTar]
  by_cases h7 : o.mountRootOk = true
  case neg =>
    have hshape : devicePipeline o repl (initDevState fs) =
        tryFinallyGen (.error (.calledProcessError "mount p2 root_mount"),
          ⟨true, true, true, true, false, fs, false, [], [Ev.loopAttach, Ev.mountBoot]⟩)
          (finallyStage o) := by
      unfold devicePipeline tryBody
      simp [runLosetup, h1, pstep, runDosfsck, h2, runFsckExt4, h3, mkBootDir, h4,
        mkRootDir, h5, mountBootStep, h6, mountRootStep, h7, initDevState]
    have hshapeN : devicePipelineNoRestore o repl (initDevState fs) =
        tryFinallyGen (.error (.calledProcessError "mount p2 root_mount"),
          ⟨true, true, true, true, false, fs, false, [], [Ev.loopAttach, Ev.mountBoot]⟩)
          (finallyStage o) := by
      unfold devicePipelineNoRestore tryBodyNoRestore
      simp [runLosetup, h1, pstep, runDosfsck, h2, runFsckExt4, h3, mkBootDir, h4,
        mkRootDir, h5, mountBootStep, h6, mountRootStep, h7, initDevState]
    refine ⟨by rw [hshape, hshapeN], ?_, ?_⟩
    · rw [hshape, tryFinallyGen_snd, finallyStage_tarTrace]
      rfl
    · rw [hshape, tryFinallyGen_snd, finallyStage_tmpTar]
  have hK : dirsToBackup (mountedDevState fs).rootFs = .ok [] := h
  have hKt : (mountedDevState fs).tmpTar = false := rfl
  obtain ⟨r, sm, hm⟩ : ∃ r sm, middleStages o repl (mountedDevState fs) = (r, sm) :=
    ⟨_, _, rfl⟩
  have htar := middle_tar_state o repl (mountedDevState fs) hK hKt
  rw [hm] at htar
  refine ⟨?_, ?_, ?_⟩
  · rw [devicePipeline_reduce o repl fs h1 h2 h3 h4 h5 h6 h7,
      devicePipelineNoRestore_reduce o repl fs h1 h2 h3 h4 h5 h6 h7,
      middle_eq_noRestore o repl (mountedDevState fs) hK hKt]
  · rw [devicePipeline_reduce o repl fs h1 h2 h3 h4 h5 h6 h7, tryFinallyGen_snd, hm,
      finallyStage_tarTrace, htar.2]
    rfl
  · rw [devicePipeline_reduce o repl fs h1 h2 h3 h4 h5 h6 h7, tryFinallyGen_snd, hm,
      finallyStage_tmpTar]
    exact htar.1

/-- Witness for `empty_preservation_restore_noop`: a donor root whose
`usr/lib` exists but contains nothing to preserve, under the all-success
oracle. -/
theorem empty_preservation_restore_noop_witness :
    devicePipeline
        ⟨true, 0, 0, true, true, true, true, true, true, fun _ => true, fun _ => true,
          true, true, true, true, true⟩ []
        (initDevState [⟨["usr"], true⟩, ⟨["usr", "lib"], true⟩]) =
      devicePipelineNoRestore
        ⟨true, 0, 0, true, true, true, true, true, true, fun _ => true, fun _ => true,
          true, true, true, true, true⟩ []
        (initDevState [⟨["usr"], true⟩, ⟨["usr", "lib"], true⟩]) ∧
    (devicePipeline
        ⟨true, 0, 0, true, true, true, true, true, true, fun _ => true, fun _ => true,
          true, true, true, true, true⟩ []
        (initDevState [⟨["usr"], true⟩, ⟨["usr", "lib"], true⟩])).2.trace.filter isTarEv =
      [] ∧
    (devicePipeline
        ⟨true, 0, 0, true, true, true, true, true, true, fun _ => true, fun _ => true,
          true, true, true, true, true⟩ []
        (initDevState [⟨["usr"], true⟩, ⟨["usr", "lib"], true⟩])).2.tmpTar = false :=
  empty_preservation_restore_noop
    ⟨true, 0, 0, true, true, true, true, true, true, fun _ => true, fun _ => true,
      true, true, true, true, true⟩ []
    [⟨["usr"], true⟩, ⟨["usr", "lib"], true⟩] (by decide)

theorem archiveStage_fail (o : DevOracle) (s : DevState) (d : List String)
    (hd : dirsToBackup s.rootFs = .ok d) (hne : d ≠ [])
    (htar : o.tarOk = false ∨ o.mvOk = false) :
    ∃ sa : DevState,
      archiveStage o s =
        (.error (.calledProcessError
          (if o.tarOk then "mv raspbian_preserve.tar /tmp"
           else "tar cf raspbian_preserve.tar")), sa) ∧
      (∀ e ∈ s.rootFs, e ∈ sa.rootFs) := by
  have hde : d.isEmpty = false := by
    cases d with
    | nil => exact absurd rfl hne
    | cons a t => rfl
  by_cases ht : o.tarOk = true
  · have hmv : o.mvOk = false := by
      rcases htar with ht2 | hmv
      · rw [ht] at ht2
        cases ht2
      · exact hmv
    refine
      ⟨{ s with
          rootFs := s.rootFs ++ [⟨["raspbian_preserve.tar"], false⟩],
          archive := archiveContent s.rootFs d,
          trace := s.trace ++ [Ev.tarCreate] },
        ?_, ?_⟩
    · unfold archiveStage
      simp [hd, hde, ht, hmv]
    · intro e he
      exact List.mem_append_left _ he
  · have ht2 : o.tarOk = false := by
      cases hb : o.tarOk
      · rfl
      · exact absurd hb ht
    refine ⟨s, ?_, fun e he => he⟩
    unfold archiveStage
    simp [hd, hde, ht2]

theorem tryFinallyGen_error {σ : Type} (t : Except PyErr Unit × σ)
    (fin : σ → Except PyErr Unit × σ) (e : PyErr) (h : t.1 = .error e) :
    ∃ e2, (tryFinallyGen t fin).1 = .error e2 := by
  unfold tryFinallyGen
  rcases fin t.2 with ⟨rf, sf⟩
  cases rf with
  | error e2 => exact ⟨e2, rfl⟩
  | ok u => exact ⟨e, h⟩

/-- C7 counterexample: with a non-empty preservation set and a failed `tar`,
additionally inject a failure of the `umount boot_mount` release command.
The pipeline then reports the `umount` failure, not the archive
(replacement) failure — the `finally` block's `check=True` release command
replaces the archive error — refuting the claim's "aborts with a
ReplacementFailed error" conjunct as universally stated.  (The wipe still
did not run in this run.) -/
theorem archive_error_masked_cex :
    (devicePipeline
        ⟨true, 0, 0, true, true, true, true, false, true, fun _ => true, fun _ => true,
          true, true, false, true, true⟩ []
        (initDevState [⟨["usr"], true⟩, ⟨["usr", "lib"], true⟩,
          ⟨["usr", "lib", "modules"], true⟩])).1 =
      .error (.calledProcessError "umount boot_mount") ∧
    PyErr.calledProcessError "umount boot_mount" ≠
      PyErr.calledProcessError "tar cf raspbian_preserve.tar" ∧
    dirsToBackup [⟨["usr"], true⟩, ⟨["usr", "lib"], true⟩,
      ⟨["usr", "lib", "modules"], true⟩] = .ok ["usr/lib/modules"] := by
  decide

/-- C7 as amended: in every run with a non-empty preservation set in which
the archive step fails — either the `tar` creating the archive inside the
mounted root, or the `mv` staging it outside the root mount — the wipe step
does not run: every object of the mounted donor root is still present when
the pipeline returns (for every failure injection of the remaining commands;
a failed `mv` merely leaves the extra archive file behind), and the pipeline
always aborts with an error.  Provided the release commands of the `finally`
block succeed, that error is exactly the failed archive command's
`CalledProcessError` (the replacement-failure abort); as the counterexample
shows, a failing release command instead replaces it with its own error. -/
theorem archive_failure_blocks_wipe (o : DevOracle) (repl fs : FS) (d : List String)
    (hd : dirsToBackup fs = .ok d) (hne : d ≠ [])
    (h1 : o.losetupOk = true) (h2 : o.dosfsckExit = 0) (h3 : o.fsckExit = 0)
    (h4 : o.mkdirBootOk = true) (h5 : o.mkdirRootOk = true)
    (h6 : o.mountBootOk = true) (h7 : o.mountRootOk = true)
    (htar : o.tarOk = false ∨ o.mvOk = false) :
    (∀ e ∈ fs, e ∈ (devicePipeline o repl (initDevState fs)).2.rootFs) ∧
    (∃ e2, (devicePipeline o repl (initDevState fs)).1 = .error e2) ∧
    (o.umountBootOk = true → o.umountRootOk = true → o.detachOk = true →
      (devicePipeline o repl (initDevState fs)).1 =
        .error (.calledProcessError
          (if o.tarOk then "mv raspbian_preserve.tar /tmp"
           else "tar cf raspbian_preserve.tar"))) := by
  obtain ⟨sa, ha, hmem⟩ := archiveStage_fail o (mountedDevState fs) d hd hne htar
  have hmid : middleStages o repl (mountedDevState fs) =
      (.error (.calledProcessError
        (if o.tarOk then "mv raspbian_preserve.tar /tmp"
         else "tar cf raspbian_preserve.tar")), sa) := by
    unfold middleStages
    rw [ha]
    rfl
  have hred := devicePipeline_reduce o repl fs h1 h2 h3 h4 h5 h6 h7
  have hframe := middleStages_frame o repl (mountedDevState fs)
  rw [hmid] at hframe
  refine ⟨?_, ?_, ?_⟩
  · intro e he
    rw [hred, tryFinallyGen_snd, hmid, finallyStage_rootFs]
    exact hmem e he
  · rw [hred]
    exact tryFinallyGen_error _ _ _ (by rw [hmid])
  · intro h8 h9 h10
    have hfin := finallyStage_ok o sa hframe.2.2.2.1 hframe.2.2.2.2.1 hframe.1 h8 h9 h10
    rw [hred, tryFinallyGen_of_ok _ _ _ (by rw [hmid]; exact hfin), hmid]

/-- Witness for `archive_failure_blocks_wipe`: a donor root with
`usr/lib/modules` whose `tar` command fails while every release command
succeeds; no donor object is deleted, the pipeline aborts, and the reported
error is the `tar` failure. -/
theorem archive_failure_blocks_wipe_witness :
    (∀ e ∈ ([⟨["usr"], true⟩, ⟨["usr", "lib"], true⟩,
        ⟨["usr", "lib", "modules"], true⟩] : FS),
      e ∈ (devicePipeline
        ⟨true, 0, 0, true, true, true, true, false, true, fun _ => true, fun _ => true,
          true, true, true, true, true⟩ []
        (initDevState [⟨["usr"], true⟩, ⟨["usr", "lib"], true⟩,
          ⟨["usr", "lib", "modules"], true⟩])).2.rootFs) ∧
    (∃ e2, (devicePipeline
        ⟨true, 0, 0, true, true, true, true, false, true, fun _ => true, fun _ => true,
          true, true, true, true, true⟩ []
        (initDevState [⟨["usr"], true⟩, ⟨["usr", "lib"], true⟩,
          ⟨["usr", "lib", "modules"], true⟩])).1 = .error e2) ∧
    (true = true → true = true → true = true →
      (devicePipeline
        ⟨true, 0, 0, true, true, true, true, false, true, fun _ => true, fun _ => true,
          true, true, true, true, true⟩ []
        (initDevState [⟨["usr"], true⟩, ⟨["usr", "lib"], true⟩,
          ⟨["usr", "lib", "modules"], true⟩])).1 =
        .error (.calledProcessError "tar cf raspbian_preserve.tar")) :=
  archive_failure_blocks_wipe
    ⟨true, 0, 0, true, true, true, true, false, true, fun _ => true, fun _ => true,
      true, true, true, true, true⟩ []
    [⟨["usr"], true⟩, ⟨["usr", "lib"], true⟩, ⟨["usr", "lib", "modules"], true⟩]
    ["usr/lib/modules"] (by decide) (by decide)
    rfl rfl rfl rfl rfl rfl rfl (Or.inl rfl)

/-- C9: for every mounted donor root that lacks a `usr/lib` directory,
preservation-set resolution does not return a set at all (in particular not
an empty one): the `usr/lib` listing raises, a preservation set is only ever
produced when `usr/lib` exists as a directory, and the pipeline run on such a
root aborts with the listing's error. -/
theorem missing_usr_lib_aborts (fs : FS) (hnd : isDirAt fs ["usr", "lib"] = false) :
    (∃ e, dirsToBackup fs = .error e) ∧
    (∀ (fs2 : FS) (d : List String), dirsToBackup fs2 = .ok d →
      isDirAt fs2 ["usr", "lib"] = true) ∧
    (∀ (o : DevOracle) (repl : FS),
      o.losetupOk = true → o.dosfsckExit = 0 → o.fsckExit = 0 →
      o.mkdirBootOk = true → o.mkdirRootOk = true →
      o.mountBootOk = true → o.mountRootOk = true →
      o.umountBootOk = true → o.umountRootOk = true → o.detachOk = true →
      ∃ e, (devicePipeline o repl (initDevState fs)).1 = .error e ∧
        dirsToBackup fs = .error e) := by
  have hne : ¬((["usr", "lib"] : FPath) = []) := by simp
  have hld : ∃ e, listdir fs ["usr", "lib"] = .error e := by
    unfold listdir
    rw [if_neg hne, if_neg (by simp [hnd])]
    by_cases hp : pathExists fs ["usr", "lib"] = true
    · rw [if_pos hp]
      exact ⟨_, rfl⟩
    · rw [if_neg hp]
      exact ⟨_, rfl⟩
  obtain ⟨e0, he0⟩ := hld
  have hderr : dirsToBackup fs = .error e0 := by
    simp only [dirsToBackup, he0]
  refine ⟨⟨e0, hderr⟩, ?_, ?_⟩
  · intro fs2 d hok
    unfold dirsToBackup at hok
    cases hl2 : listdir fs2 ["usr", "lib"] with
    | error e =>
      rw [hl2] at hok
      cases hok
    | ok ns =>
      unfold listdir at hl2
      rw [if_neg hne] at hl2
      by_cases hdir : isDirAt fs2 ["usr", "lib"] = true
      · exact hdir
      · rw [if_neg hdir] at hl2
        by_cases hp : pathExists fs2 ["usr", "lib"] = true
        · rw [if_pos hp] at hl2
          cases hl2
        · rw [if_neg hp] at hl2
          cases hl2
  · intro o repl h1 h2 h3 h4 h5 h6 h7 h8 h9 h10
    have ha : archiveStage o (mountedDevState fs) = (.error e0, mountedDevState fs) := by
      unfold archiveStage
      simp [mountedDevState, hderr]
    have hmid : middleStages o repl (mountedDevState fs) =
        (.error e0, mountedDevState fs) := by
      unfold middleStages
      rw [ha]
      rfl
    obtain ⟨r, sm, hm, hframe, hpipe⟩ :=
      pipelineReleaseShape o repl fs h1 h2 h3 h4 h5 h6 h7 h8 h9 h10
    rw [hmid] at hm
    injection hm with hr hs
    subst hr
    refine ⟨e0, ?_, hderr⟩
    rw [hpipe]

/-- Witness for `missing_usr_lib_aborts`: a donor root with only `usr`. -/
theorem missing_usr_lib_aborts_witness :
    ∃ e, dirsToBackup [⟨["usr"], true⟩] = .error e :=
  (missing_usr_lib_aborts [⟨["usr"], true⟩] (by decide)).1
